import Mathlib

/-!
Verification development for the movie recommendation service.

Shallow embedding of the recommendation engine
(`src/services/recommendationEngine.ts`), the request validation pipeline
(`src/middleware/validation.ts`, `src/schemas/validation.ts`,
`src/routes/recommendations.ts`, `src/controllers/recommendationController.ts`),
the cache invalidation handlers (`src/services/cacheService.ts`) and the AI
response parser (`src/services/aiService.ts`).

Modelling conventions:
  * JavaScript numbers are modelled as real numbers (`ℝ`) where irrational
    values can occur (`Math.sqrt` in the Pearson correlation, and every
    recommendation score derived from it), and as rationals (`ℚ`) elsewhere.
    Floating point rounding is abstracted away; `NaN` is modelled explicitly
    as `Option.none` where a claim depends on it (AI parser scores).
  * JavaScript string keyed `Map`s are modelled as association lists with
    insertion-order semantics (`mapSet` keeps the position of an existing key
    and appends a new key, exactly like `Map.prototype.set`).
  * `Array.prototype.sort` is stable (ECMA 2019); with a consistent comparator
    the sorted output is therefore uniquely determined, and we model it by a
    stable insertion sort (`stableSortByLt`).
  * `async`/`await` and `try`/`catch` wrappers are dropped: the embedded
    bodies are total, so the `catch` branches of the engine are unreachable
    in the model.
-/

namespace MovieRec

open scoped Classical

/-- Data model of `src/types/index.ts`. Fields not consulted by the
recommendation engine (`title` is kept, `description`, `actors`, image and
locale metadata, timestamps are omitted) do not influence any claim. -/
structure Movie where
  id : String
  title : String
  genre : List String
  year : ℤ
  director : Option String
  rating : Option ℚ
deriving DecidableEq

/-- A rating record (`Rating` in `src/types/index.ts`); `review` and the
timestamps are omitted as the engine never reads them. -/
structure Rating where
  userId : String
  movieId : String
  rating : ℚ
  liked : Bool
deriving DecidableEq

/-- A user record; only the identity is read by the engine. -/
structure User where
  id : String
deriving DecidableEq

/-- Output unit of every recommender (`Recommendation` in
`src/types/index.ts`). -/
structure Recommendation where
  movie : Movie
  score : ℝ
  reason : String

/-- Read-only snapshot handed to the engine by the storage collaborator
(`db` in `src/services/database.ts`). -/
structure DB where
  users : List User
  ratings : List Rating
  movies : List Movie

def DB.getAllRatings (db : DB) : List Rating := db.ratings

def DB.getAllUsers (db : DB) : List User := db.users

def DB.getUserRatings (db : DB) (userId : String) : List Rating :=
  db.ratings.filter (fun r => r.userId == userId)

def DB.getMovieById (db : DB) (movieId : String) : Option Movie :=
  db.movies.find? (fun m => m.id == movieId)

/-- JavaScript truthiness of an optional numeric field (`movie.rating && …`):
`undefined` and `0` are falsy. -/
def truthyRating : Option ℚ → Bool
  | some q => q != 0
  | none => false

/-- JavaScript truthiness of an optional string field (`movie.director && …`):
`undefined` and the empty string are falsy. -/
def truthyDirector : Option String → Bool
  | some s => s != ""
  | none => false

/-- `movie.rating || 0`. -/
def ratingOrZero (m : Movie) : ℚ := m.rating.getD 0

/-- Stable insertion of `a` into `l`: `a` is placed before the first element
that it does not strictly follow under `lt`.  Folding this over a list from
the right yields exactly the output of a stable sort whose comparator orders
`x` before `y` iff `lt y x`. -/
def stableInsertByLt (lt : α → α → Bool) (a : α) : List α → List α
  | [] => [a]
  | x :: xs => if lt a x then x :: stableInsertByLt lt a xs else a :: x :: xs

/-- Stable sort: the model of `Array.prototype.sort` (stable per ECMA 2019).
For a comparator induced by a key (`(a, b) => key(b) - key(a)`, descending)
the stable result is unique, so this insertion sort is extensionally equal to
the engine's sort calls. -/
def stableSortByLt (lt : α → α → Bool) : List α → List α
  | [] => []
  | x :: xs => stableInsertByLt lt x (stableSortByLt lt xs)

/-- `.sort((a, b) => b.score - a.score)` on recommendation lists. -/
noncomputable def sortByScoreDesc (l : List Recommendation) : List Recommendation :=
  stableSortByLt (fun a b => decide (a.score < b.score)) l

/-- `src/services/recommendationEngine.ts`, `calculateUserSimilarity`:
the ratings of user 1 whose movie also appears among user 2's ratings. -/
def commonMovies (u1Ratings u2Ratings : List Rating) : List Rating :=
  u1Ratings.filter (fun r1 => u2Ratings.any (fun r2 => r2.movieId == r1.movieId))

/-- `const r2 = user2Ratings.find(r2 => r2.movieId === r1.movieId); return r2 ? r2.rating : 0`. -/
def ratingOf (l : List Rating) (movieId : String) : ℚ :=
  match l.find? (fun r2 => r2.movieId == movieId) with
  | some r2 => r2.rating
  | none => 0

/-- `n`, the number of shared rated movies, as a rational. -/
def pearsonN (a b : List Rating) : ℚ := ((commonMovies a b).length : ℚ)

/-- `sum1 = user1CommonRatings.reduce((a, b) => a + b, 0)`. -/
def pearsonSum1 (a b : List Rating) : ℚ :=
  ((commonMovies a b).map (fun r => r.rating)).sum

/-- `sum2`, summing user 2's ratings over the shared movies. -/
def pearsonSum2 (a b : List Rating) : ℚ :=
  ((commonMovies a b).map (fun r1 => ratingOf b r1.movieId)).sum

/-- `sum1Sq = user1CommonRatings.reduce((a, b) => a + b * b, 0)`. -/
def pearsonSum1Sq (a b : List Rating) : ℚ :=
  ((commonMovies a b).map (fun r => r.rating * r.rating)).sum

/-- `sum2Sq`, over user 2's ratings on the shared movies. -/
def pearsonSum2Sq (a b : List Rating) : ℚ :=
  ((commonMovies a b).map (fun r1 => ratingOf b r1.movieId * ratingOf b r1.movieId)).sum

/-- `pSum = … acc + r1 * user2CommonRatings[i]`; both factors of each term
come from the same entry of `commonMovies`, so the indexed `reduce` is a
single map-sum. -/
def pearsonPSum (a b : List Rating) : ℚ :=
  ((commonMovies a b).map (fun r1 => r1.rating * ratingOf b r1.movieId)).sum

/-- `num = pSum - (sum1 * sum2 / n)`. -/
def pearsonNum (a b : List Rating) : ℚ :=
  pearsonPSum a b - pearsonSum1 a b * pearsonSum2 a b / pearsonN a b

/-- First factor under the square root: `sum1Sq - sum1 * sum1 / n`. -/
def pearsonVar1 (a b : List Rating) : ℚ :=
  pearsonSum1Sq a b - pearsonSum1 a b * pearsonSum1 a b / pearsonN a b

/-- Second factor under the square root: `sum2Sq - sum2 * sum2 / n`. -/
def pearsonVar2 (a b : List Rating) : ℚ :=
  pearsonSum2Sq a b - pearsonSum2 a b * pearsonSum2 a b / pearsonN a b

/-- `den = Math.sqrt((sum1Sq - sum1*sum1/n) * (sum2Sq - sum2*sum2/n))`. -/
noncomputable def pearsonDen (a b : List Rating) : ℝ :=
  Real.sqrt ((pearsonVar1 a b * pearsonVar2 a b : ℚ) : ℝ)

/-- `calculateUserSimilarity`: Pearson correlation over the shared movies;
`0` when fewer than 2 movies are shared or the denominator is `0`. -/
noncomputable def calculateUserSimilarity (a b : List Rating) : ℝ :=
  if (commonMovies a b).length < 2 then 0
  else if pearsonDen a b = 0 then 0
  else ((pearsonNum a b : ℚ) : ℝ) / pearsonDen a b

/-- A neighbor candidate produced by `findSimilarUsers`. -/
structure SimilarUser where
  user : User
  similarity : ℝ

/-- `.sort((a, b) => b.similarity - a.similarity)`. -/
noncomputable def sortBySimilarityDesc (l : List SimilarUser) : List SimilarUser :=
  stableSortByLt (fun a b => decide (a.similarity < b.similarity)) l

/-- `findSimilarUsers`: similarity of the target to every other user,
thresholded at `> 0.3`, sorted descending, top 10. -/
noncomputable def findSimilarUsers (targetUserId : String) (allRatings : List Rating)
    (allUsers : List User) : List SimilarUser :=
  let targetUserRatings := allRatings.filter (fun r => r.userId == targetUserId)
  (sortBySimilarityDesc
    (((allUsers.filter (fun u => u.id != targetUserId)).map (fun u =>
        { user := u,
          similarity := calculateUserSimilarity targetUserRatings
            (allRatings.filter (fun r => r.userId == u.id)) })).filter
      (fun it => decide ((0.3 : ℝ) < it.similarity)))).take 10

/-- Accumulator value of the `movieScores` map. -/
structure ScoreCount where
  score : ℝ
  count : ℕ

/-- `Map.prototype.get`, on the association-list model of a JS `Map`. -/
def mapGet (m : List (String × α)) (k : String) : Option α :=
  (m.find? (fun p => p.1 == k)).map (fun p => p.2)

/-- `Map.prototype.set`: replaces the value of an existing key in place
(keeping its insertion position), appends a new key. -/
def mapSet (m : List (String × α)) (k : String) (v : α) : List (String × α) :=
  if m.any (fun p => p.1 == k) then m.map (fun p => if p.1 == k then (k, v) else p)
  else m ++ [(k, v)]

/-- Inner loop of `getRecommendationsFromSimilarUsers`: fold one similar
user's qualifying ratings (liked, rating ≥ 4, not watched by the target)
into the `movieScores` map. -/
noncomputable def accumulateSimilarUser (allRatings : List Rating) (watchedMovieIds : List String)
    (acc : List (String × ScoreCount)) (su : SimilarUser) : List (String × ScoreCount) :=
  let userRatings := allRatings.filter (fun r =>
    r.userId == su.user.id && r.liked && decide ((4 : ℚ) ≤ r.rating) &&
      !(watchedMovieIds.contains r.movieId))
  userRatings.foldl (fun acc2 r =>
    let current := (mapGet acc2 r.movieId).getD { score := 0, count := 0 }
    mapSet acc2 r.movieId
      { score := current.score + (r.rating : ℝ) * su.similarity, count := current.count + 1 }) acc

/-- `getRecommendationsFromSimilarUsers`. -/
noncomputable def getRecommendationsFromSimilarUsers (targetUserId : String)
    (similarUsers : List SimilarUser) (allRatings : List Rating) (allMovies : List Movie)
    (limit : ℕ) : List Recommendation :=
  let targetUserRatings := allRatings.filter (fun r => r.userId == targetUserId)
  let watchedMovieIds := targetUserRatings.map (fun r => r.movieId)
  let movieScores := similarUsers.foldl (accumulateSimilarUser allRatings watchedMovieIds) []
  let recommendations := movieScores.foldl (fun acc p =>
    match allMovies.find? (fun m => m.id == p.1) with
    | some movie =>
        let reco : Recommendation :=
          { movie := movie,
            score := p.2.score / (p.2.count : ℝ),
            reason := "Recommended by " ++ toString p.2.count ++ " similar user" ++
              (if 1 < p.2.count then "s" else "") }
        acc ++ [reco]
    | none => acc) []
  (sortByScoreDesc recommendations).take limit

/-- `.sort((a, b) => (b.rating || 0) - (a.rating || 0))` of `getPopularMovies`. -/
def sortByQualityDesc (l : List Movie) : List Movie :=
  stableSortByLt (fun a b => decide (ratingOrZero a < ratingOrZero b)) l

/-- `.map((movie, index) => ({ movie, score: 0.8 - index * 0.05, … }))`,
written as an explicitly indexed recursion. -/
noncomputable def popScore : ℕ → List Movie → List Recommendation
  | _, [] => []
  | i, m :: ms =>
    { movie := m, score := 0.8 - (i : ℝ) * 0.05, reason := "Popular highly-rated movie" } ::
      popScore (i + 1) ms

/-- `getPopularMovies`: keep movies with a truthy quality score ≥ 7, sort by
quality descending, truncate to `limit`, then assign rank scores. -/
noncomputable def getPopularMovies (allMovies : List Movie) (limit : ℕ) : List Recommendation :=
  popScore 0
    ((sortByQualityDesc (allMovies.filter (fun m =>
        truthyRating m.rating && decide ((7 : ℚ) ≤ ratingOrZero m)))).take limit)

/-- `generateCollaborativeRecommendations`.  The `try`/`catch` wrapper is
dropped: the body is total in the model, so the `catch` fallback is
unreachable. -/
noncomputable def generateCollaborativeRecommendations (db : DB) (targetUserId : String)
    (allMovies : List Movie) (limit : ℕ) : List Recommendation :=
  let allRatings := db.getAllRatings
  let allUsers := db.getAllUsers
  let targetUserRatings := allRatings.filter (fun r => r.userId == targetUserId)
  if targetUserRatings.length = 0 then getPopularMovies allMovies limit
  else
    getRecommendationsFromSimilarUsers targetUserId
      (findSimilarUsers targetUserId allRatings allUsers) allRatings allMovies limit

/-- The `likedMovies` loop of `generateContentBasedRecommendations`: movies
behind the target's favorable (liked, rating ≥ 4) ratings, missing catalog
entries skipped. -/
def likedMoviesOf (db : DB) (targetUserId : String) : List Movie :=
  ((db.getUserRatings targetUserId).filter (fun r =>
      r.liked && decide ((4 : ℚ) ≤ r.rating))).foldl
    (fun acc r =>
      match db.getMovieById r.movieId with
      | some movie => acc ++ [movie]
      | none => acc) []

/-- One term of `calculateContentSimilarity`'s loop: the similarity
contribution of a single liked movie.  When both genre lists are empty the
source divides `0 / 0` (JavaScript `NaN`); the model follows the Lean
convention `0 / 0 = 0`, and every theorem below about content scores (both
the range bounds and the descending-order statements) assumes nonempty
genre lists, which rules that case out. -/
noncomputable def contentSimOne (movie likedMovie : Movie) : ℝ :=
  let genreOverlap : ℕ := (movie.genre.filter (fun g => likedMovie.genre.contains g)).length
  let genreUnion : ℕ := (movie.genre ++ likedMovie.genre).dedup.length
  let genreScore : ℝ := ((genreOverlap : ℝ) / (genreUnion : ℝ)) * 0.5
  let directorScore : ℝ :=
    if truthyDirector movie.director && truthyDirector likedMovie.director &&
        (movie.director == likedMovie.director) then 0.2 else 0
  let yearDiff : ℤ := |movie.year - likedMovie.year|
  let yearScore : ℝ := if yearDiff ≤ 5 then 0.15 else if yearDiff ≤ 15 then 0.1 else 0
  let ratingScore : ℝ :=
    if truthyRating movie.rating && truthyRating likedMovie.rating then
      (if |ratingOrZero movie - ratingOrZero likedMovie| ≤ 1 then 0.15 else 0)
    else 0
  genreScore + directorScore + yearScore + ratingScore

/-- `calculateContentSimilarity`: average of the per-liked-movie terms. -/
noncomputable def calculateContentSimilarity (movie : Movie) (likedMovies : List Movie) : ℝ :=
  let totalSimilarity : ℝ := (likedMovies.map (contentSimOne movie)).sum
  if 0 < likedMovies.length then totalSimilarity / (likedMovies.length : ℝ) else 0

/-- `generateContentReason`. -/
def generateContentReason (movie : Movie) (likedMovies : List Movie) : String :=
  let commonGenres := movie.genre.filter (fun g =>
    likedMovies.any (fun liked => liked.genre.contains g))
  let genreReasons : List String :=
    if 0 < commonGenres.length then
      ["shares " ++ String.intercalate ", " commonGenres ++ " genre" ++
        (if 1 < commonGenres.length then "s" else "")]
    else []
  let commonDirectors := likedMovies.filter (fun liked =>
    truthyDirector movie.director && (liked.director == movie.director))
  let reasons := genreReasons ++
    (if 0 < commonDirectors.length then ["same director as liked movies"] else [])
  if 0 < reasons.length then "Recommended because it " ++ String.intercalate " and " reasons
  else "Similar to your preferences"

/-- `generateContentBasedRecommendations` (again with the unreachable
`catch` branch dropped). -/
noncomputable def generateContentBasedRecommendations (db : DB) (targetUserId : String)
    (allMovies : List Movie) (limit : ℕ) : List Recommendation :=
  let userRatings := db.getUserRatings targetUserId
  let likedMovies := likedMoviesOf db targetUserId
  if likedMovies.length = 0 then getPopularMovies allMovies limit
  else
    (sortByScoreDesc
      ((allMovies.filter (fun movie =>
          !(userRatings.any (fun r => r.movieId == movie.id)))).map (fun movie =>
        { movie := movie,
          score := calculateContentSimilarity movie likedMovies,
          reason := generateContentReason movie likedMovies }))).take limit

/-- The two `forEach` loops of `generateHybridRecommendations` that build the
`combinedRecs` map (a JS `Map`, modelled as an insertion-ordered association
list). -/
noncomputable def hybridCombine (collaborativeRecs contentBasedRecs : List Recommendation) :
    List (String × Recommendation) :=
  let afterCollab := collaborativeRecs.foldl (fun m r =>
    mapSet m r.movie.id
      { r with score := r.score * 0.6, reason := r.reason ++ " (collaborative filtering)" }) []
  contentBasedRecs.foldl (fun m r =>
    match mapGet m r.movie.id with
    | some existing =>
        mapSet m r.movie.id
          { existing with score := (existing.score + r.score * 0.4) / 1.4,
                          reason := existing.reason ++ " + content similarity" }
    | none =>
        mapSet m r.movie.id
          { r with score := r.score * 0.4, reason := r.reason ++ " (content-based)" }) afterCollab

/-- `generateHybridRecommendations`; `Math.ceil(limit * 0.6)` and
`Math.ceil(limit * 0.4)` are the exact natural-number ceilings (the float
products round to the correct values for every representable `limit`). -/
noncomputable def generateHybridRecommendations (db : DB) (targetUserId : String)
    (allMovies : List Movie) (limit : ℕ) : List Recommendation :=
  let collaborativeRecs :=
    generateCollaborativeRecommendations db targetUserId allMovies ((6 * limit + 9) / 10)
  let contentBasedRecs :=
    generateContentBasedRecommendations db targetUserId allMovies ((4 * limit + 9) / 10)
  (sortByScoreDesc ((hybridCombine collaborativeRecs contentBasedRecs).map (fun p => p.2))).take limit

/-! ### Request validation (`validateQuery` + `RecommendationRequestSchema`)

`GET /api/recommendations` runs `validateQuery` over the zod schema
`RecommendationRequestSchema.extend({ algorithm: z.enum([...]).optional() })`
and then `getRecommendations`.  Query fields other than `algorithm` and
`limit` (`genres`, `excludeWatched`, `minYear`, `maxYear`) are optional,
independent of the two validated here, and omitted from the model. -/

/-- Decimal digit string to a natural number; `none` unless nonempty and all
digits. -/
def decDigits? (cs : List Char) : Option ℕ :=
  if cs ≠ [] ∧ cs.all (fun c => c.isDigit) then
    some (cs.foldl (fun n c => 10 * n + (c.toNat - 48)) 0)
  else none

/-- Unsigned decimal numeral, optionally with a fractional part
(`"12"`, `"12.5"`, `"12."`, `".5"`). -/
def unsignedRat? (cs : List Char) : Option ℚ :=
  match cs.splitOn '.' with
  | [intPart] => (decDigits? intPart).map (fun n => (n : ℚ))
  | [intPart, fracPart] =>
    if intPart = [] ∧ fracPart = [] then none
    else
      let ip? : Option ℚ :=
        if intPart = [] then some 0 else (decDigits? intPart).map (fun n => (n : ℚ))
      let fp? : Option ℚ :=
        if fracPart = [] then some 0
        else (decDigits? fracPart).map (fun n => (n : ℚ) / (10 : ℚ) ^ fracPart.length)
      match ip?, fp? with
      | some i, some f => some (i + f)
      | _, _ => none
  | _ => none

/-- JavaScript `Number(string)` restricted to plain decimal numerals:
`""` is `0`, an optional leading sign, digits with an optional decimal
point; `none` models `NaN`.  (Hex, exponent and `Infinity` forms never
occur in the modelled call sites and are out of scope.) -/
def jsStringToNumber (s : String) : Option ℚ :=
  match s.data with
  | [] => some 0
  | '-' :: rest => if rest = [] then none else (unsignedRat? rest).map (fun q => -q)
  | '+' :: rest => if rest = [] then none else unsignedRat? rest
  | cs => unsignedRat? cs

/-- A query-string value after `validateQuery`'s coercion loop. -/
inductive QueryValue where
  | num (q : ℚ)
  | bool (b : Bool)
  | str (s : String)
deriving DecidableEq

/-- The coercion loop of `validateQuery`: numeric strings become numbers
(`!isNaN(Number(value))`), then `'true'`/`'false'` become booleans,
everything else stays a string. -/
def processQueryValue (s : String) : QueryValue :=
  match jsStringToNumber s with
  | some q => .num q
  | none => if s == "true" then .bool true else if s == "false" then .bool false else .str s

/-- `z.enum(['hybrid', 'collaborative', 'content', 'ai'])` from
`src/routes/recommendations.ts`. -/
def algorithmEnum : List String := ["hybrid", "collaborative", "content", "ai"]

/-- Parse of the optional `algorithm` field: absent is fine, a string is
checked against the enum, any other type is rejected (`none`). -/
def parseAlgorithmField : Option QueryValue → Option (Option String)
  | none => some none
  | some (.str s) => if s ∈ algorithmEnum then some (some s) else none
  | some _ => none

/-- Parse of the optional `limit` field:
`z.number().int().min(1).max(50)`. -/
def parseLimitField : Option QueryValue → Option (Option ℚ)
  | none => some none
  | some (.num q) => if q.den = 1 ∧ 1 ≤ q ∧ q ≤ 50 then some (some q) else none
  | some _ => none

/-- Outcome of one request to `GET /api/recommendations`. -/
inductive RequestOutcome where
  | rejected
  | dispatched (algorithm : String) (limit : ℚ)
deriving DecidableEq

/-- Raw query-string input of a recommendation request. -/
structure RawQuery where
  algorithm : Option String
  limit : Option String

/-- The route pipeline: `validateQuery` (rejects with HTTP 400 on a zod
failure) followed by the controller's `switch (algorithm)` dispatch with
defaults `algorithm = 'hybrid'`, `limit = 10`. -/
def handleGetRecommendations (raw : RawQuery) : RequestOutcome :=
  match parseAlgorithmField (raw.algorithm.map processQueryValue),
        parseLimitField (raw.limit.map processQueryValue) with
  | some algOk, some limOk =>
    let algorithm := algOk.getD "hybrid"
    let limit := limOk.getD 10
    .dispatched
      (if algorithm == "collaborative" then "collaborative"
       else if algorithm == "content" then "content"
       else if algorithm == "ai" then "ai"
       else "hybrid") limit
  | _, _ => .rejected

/-! ### Cache invalidation (`src/services/cacheService.ts`)

`NodeCache` is modelled as an association list from keys to entries; keys
are character lists (JS strings), so that the `startsWith`-based
invalidation loops can be reasoned about directly. -/

/-- `s.startsWith(p)` on character lists: `hasPre p s` holds iff `p` is a
prefix of `s`. -/
def hasPre : List Char → List Char → Bool
  | [], _ => true
  | _ :: _, [] => false
  | c :: cs, d :: ds => c == d && hasPre cs ds

/-- The literal `'recommendations-'`. -/
def recKeyHead : List Char := "recommendations-".data

/-- The cache key `` `recommendations-${userId}-${algorithm}` `` of
`setRecommendations`/`getRecommendations`. -/
def recKeyOf (userId algorithm : List Char) : List Char :=
  recKeyHead ++ userId ++ '-' :: algorithm

/-- The pattern `` `recommendations-${userId}-` `` used by
`invalidateUserRecommendations`. -/
def userRecStub (userId : List Char) : List Char := recKeyHead ++ userId ++ ['-']

/-- `cache.del(key)`. -/
def cacheDel (c : List (List Char × α)) (k : List Char) : List (List Char × α) :=
  c.filter (fun p => !(p.1 == k))

/-- `cache.keys()`. -/
def cacheKeys (c : List (List Char × α)) : List (List Char) := c.map (fun p => p.1)

/-- `invalidateUserRecommendations`: iterate over a snapshot of the keys and
delete those starting with `` `recommendations-${userId}-` ``. -/
def invalidateUserRecommendations (userId : List Char) (c : List (List Char × α)) :
    List (List Char × α) :=
  (cacheKeys c).foldl
    (fun acc k => if hasPre (userRecStub userId) k then cacheDel acc k else acc) c

/-- `invalidateAllRecommendations`: delete every key starting with
`'recommendations-'`. -/
def invalidateAllRecommendations (c : List (List Char × α)) : List (List Char × α) :=
  (cacheKeys c).foldl (fun acc k => if hasPre recKeyHead k then cacheDel acc k else acc) c

/-- `invalidateMovie`: drop the single movie entry and the movie list. -/
def invalidateMovie (movieId : List Char) (c : List (List Char × α)) : List (List Char × α) :=
  cacheDel (cacheDel c ("movie-".data ++ movieId)) "all-movies".data

/-- `invalidateAllMovies`. -/
def invalidateAllMovies (c : List (List Char × α)) : List (List Char × α) :=
  let c1 := cacheDel c "all-movies".data
  (cacheKeys c1).foldl (fun acc k => if hasPre "movie-".data k then cacheDel acc k else acc) c1

/-- `onUserRating`. -/
def onUserRating (userId : List Char) (c : List (List Char × α)) : List (List Char × α) :=
  invalidateUserRecommendations userId c

/-- `onMovieUpdate`. -/
def onMovieUpdate (movieId : List Char) (c : List (List Char × α)) : List (List Char × α) :=
  invalidateAllRecommendations (invalidateMovie movieId c)

/-- `onMovieCreate`. -/
def onMovieCreate (c : List (List Char × α)) : List (List Char × α) :=
  invalidateAllRecommendations (invalidateAllMovies c)

/-- `onMovieDelete`. -/
def onMovieDelete (movieId : List Char) (c : List (List Char × α)) : List (List Char × α) :=
  invalidateAllRecommendations (invalidateMovie movieId c)

/-! ### AI response parsing (`AIService.parseAIResponse`)

The response string is modelled after `JSON.parse`: `none` stands for a
string on which `JSON.parse` throws, `some j` for a successfully parsed
JSON value.  JavaScript `NaN` (which arises when a truthy non-numeric
`score` field flows through `Math.min`/`Math.max`) is modelled as
`Option.none` in the output score. -/

/-- Parsed JSON values. -/
inductive Json where
  | null
  | bool (b : Bool)
  | num (q : ℚ)
  | str (s : String)
  | arr (elems : List Json)
  | obj (fields : List (String × Json))

/-- JS property access `rec.key` (non-objects have no own properties at the
modelled call sites). -/
def getField : Json → String → Option Json
  | .obj fields, k => (fields.find? (fun p => p.1 == k)).map (fun p => p.2)
  | _, _ => none

/-- JS truthiness of a JSON value. -/
def jsTruthy : Json → Bool
  | .null => false
  | .bool b => b
  | .num q => q != 0
  | .str s => s != ""
  | .arr _ => true
  | .obj _ => true

/-- JS `ToNumber` on a JSON value, `none` modelling `NaN`.  The coercion of
a nonempty array via `ToString` is out of the modelled scope and mapped to
`NaN`. -/
def jsToNumber : Json → Option ℚ
  | .null => some 0
  | .bool b => some (if b then 1 else 0)
  | .num q => some q
  | .str s => jsStringToNumber s
  | .arr [] => some 0
  | .arr (_ :: _) => none
  | .obj _ => none

/-- `Math.min(a, x)` with `NaN` propagation. -/
def jsMin (a : ℚ) : Option ℚ → Option ℚ
  | some q => some (min a q)
  | none => none

/-- `Math.max(a, x)` with `NaN` propagation. -/
def jsMax (a : ℚ) : Option ℚ → Option ℚ
  | some q => some (max a q)
  | none => none

/-- Output unit of the AI recommender; `score = none` models `NaN`. -/
structure AIRecommendation where
  movie : Movie
  score : Option ℚ
  reason : String

/-- Display form of a truthy non-string `reason` value (string coercion of
numbers is abstracted). -/
def jsToDisplayString : Json → String
  | .str s => s
  | .num q => toString q
  | .bool b => if b then "true" else "false"
  | .null => "null"
  | .arr _ => ""
  | .obj _ => "[object Object]"

/-- One element of the `.map(...)` in `parseAIResponse`: `null` (dropped by
`.filter(Boolean)`) unless the `movieId` resolves in the catalog; the score
is `Math.max(0.1, Math.min(1.0, rec.score || 0.5))`. -/
def parseAIRecElem (allMovies : List Movie) (j : Json) : Option AIRecommendation :=
  match
    (match getField j "movieId" with
     | some (.str sid) => allMovies.find? (fun m => m.id == sid)
     | _ => none) with
  | none => none
  | some movie =>
    let scoreField := getField j "score"
    let scoreExpr : Option ℚ :=
      match scoreField with
      | some v => if jsTruthy v then jsToNumber v else some (1 / 2)
      | none => some (1 / 2)
    let reason :=
      match getField j "reason" with
      | some v => if jsTruthy v then jsToDisplayString v
                  else "AI recommended based on your preferences"
      | none => "AI recommended based on your preferences"
    some { movie := movie, score := jsMax (1 / 10) (jsMin 1 scoreExpr), reason := reason }

/-- Comparator order of `.sort((a, b) => b.score - a.score)` in the AI
parser: with a `NaN` score the comparator evaluates to `NaN`, which the sort
treats as `0` (a tie), so strict descending order only applies between
numeric scores. -/
def aiScoreLt (a b : AIRecommendation) : Bool :=
  match a.score, b.score with
  | some x, some y => decide (x < y)
  | _, _ => false

/-- `parseAIResponse`: unparseable responses and non-array JSON yield `[]`
(the `try`/`catch` swallows both the `JSON.parse` exception and the
`TypeError` of calling `.map` on a non-array).  A `null` array element also
yields `[]`: `rec.movieId` on `null` throws a `TypeError` that the same
`catch` swallows. -/
def parseAIResponse (parsed : Option Json) (allMovies : List Movie) : List AIRecommendation :=
  match parsed with
  | some (.arr elems) =>
    if elems.any (fun e => match e with | .null => true | _ => false) then []
    else stableSortByLt aiScoreLt (elems.filterMap (parseAIRecElem allMovies))
  | some _ => []
  | none => []

/-! ### Concrete fixtures used by counterexamples and witnesses -/

/-- Catalog movie `m1` of the two-user scenario. -/
def mvA1 : Movie :=
  { id := "m1", title := "M1", genre := ["a"], year := 2000, director := none, rating := some 8 }

/-- Catalog movie `m2` of the two-user scenario. -/
def mvA2 : Movie :=
  { id := "m2", title := "M2", genre := ["a"], year := 2000, director := none, rating := some 8 }

/-- Catalog movie `m3` of the two-user scenario. -/
def mvA3 : Movie :=
  { id := "m3", title := "M3", genre := ["a"], year := 2000, director := none, rating := some 8 }

/-- The catalog of the two-user scenario. -/
def exMovies : List Movie := [mvA1, mvA2, mvA3]

/-- Two users: the target `t` rated `m1`, `m2` favorably; the peer `u`
rated the same two movies identically (perfect correlation) and likes
`m3` with rating 5. -/
def exDB : DB :=
  { users := [{ id := "t" }, { id := "u" }],
    ratings :=
      [{ userId := "t", movieId := "m1", rating := 4, liked := true },
       { userId := "t", movieId := "m2", rating := 5, liked := true },
       { userId := "u", movieId := "m1", rating := 4, liked := false },
       { userId := "u", movieId := "m2", rating := 5, liked := false },
       { userId := "u", movieId := "m3", rating := 5, liked := true }],
    movies := exMovies }

/-- A catalog item whose quality score is present but below 7. -/
def mvLow : Movie :=
  { id := "p5", title := "P5", genre := ["a"], year := 2000, director := none, rating := some 5 }

/-- A catalog item with quality score 8. -/
def mvHigh : Movie :=
  { id := "p8", title := "P8", genre := ["a"], year := 2000, director := none, rating := some 8 }

/-- A subject with zero ratings. -/
def zeroDB : DB := { users := [{ id := "z" }], ratings := [], movies := [mvLow, mvHigh] }

/-- Scenario for the zero-neighbor case: the target has one rating, the
only other user shares no rated movie with the target. -/
def noNbrDB : DB :=
  { users := [{ id := "t4" }, { id := "u4" }],
    ratings :=
      [{ userId := "t4", movieId := "q1", rating := 4, liked := true },
       { userId := "u4", movieId := "q2", rating := 5, liked := true }],
    movies := [{ id := "q2", title := "Q2", genre := ["a"], year := 2000, director := none,
                 rating := some 8 }] }

/-- Liked movie of the tie-break scenario. -/
def mvC1 : Movie :=
  { id := "c1", title := "C1", genre := ["g"], year := 2000, director := none, rating := none }

/-- Tie-break scenario: candidate with identity `b`, listed first in the
catalog. -/
def mvCB : Movie :=
  { id := "b", title := "B", genre := ["g"], year := 2000, director := none, rating := none }

/-- Tie-break scenario: candidate with identity `a`, listed second. -/
def mvCA : Movie :=
  { id := "a", title := "A", genre := ["g"], year := 2000, director := none, rating := none }

/-- Tie-break scenario database: the target liked `c1`; `b` and `a` are
identical candidates (equal content scores) listed in the order `b`, `a`. -/
def tieDB : DB :=
  { users := [{ id := "t7" }],
    ratings := [{ userId := "t7", movieId := "c1", rating := 4, liked := true }],
    movies := [mvC1, mvCB, mvCA] }

/-- Catalog movie for the AI-parser scenarios. -/
def mvX1 : Movie :=
  { id := "x1", title := "X1", genre := ["a"], year := 2015, director := none, rating := some 8 }

/-- AI response whose `score` field is the truthy non-numeric string
`"high"`. -/
def aiBadScoreJson : Json :=
  .arr [.obj [("movieId", .str "x1"), ("score", .str "high")]]

/-- Well-formed AI response with a numeric score and no reason. -/
def aiGoodJson : Json :=
  .arr [.obj [("movieId", .str "x1"), ("score", .num (19 / 20))]]

/-- Concrete cache content for the invalidation witness: recommendation
entries of two subjects plus the movie-list entry. -/
def cacheEx : List (List Char × ℕ) :=
  [(recKeyOf "u1".data "hybrid".data, 1),
   (recKeyOf "u2".data "content".data, 2),
   ("all-movies".data, 3)]

/-- Collaborative-side entry for the fusion-combination witness. -/
noncomputable def wColl : Recommendation := { movie := mvA3, score := 5, reason := "X" }

/-- Content-side entry (same movie) for the fusion-combination witness. -/
noncomputable def wCont : Recommendation := { movie := mvA3, score := 0.8, reason := "Y" }

/-- Spec-side description of the fallback scores: "decreasing scores
starting at 0.8 with a 0.05 step per rank". -/
noncomputable def specFallbackScores (n : ℕ) : List ℝ :=
  (List.range n).map (fun i : ℕ => 0.8 - (i : ℝ) * 0.05)

/-- The spec's worked example, subject U1: `M1 = 5`, `M2 = 5`. -/
def specU1 : List Rating :=
  [{ userId := "u1", movieId := "M1", rating := 5, liked := true },
   { userId := "u1", movieId := "M2", rating := 5, liked := true }]

/-- The spec's worked example, subject U2: `M1 = 5`, `M2 = 4`, `M3 = 5`. -/
def specU2 : List Rating :=
  [{ userId := "u2", movieId := "M1", rating := 5, liked := false },
   { userId := "u2", movieId := "M2", rating := 4, liked := false },
   { userId := "u2", movieId := "M3", rating := 5, liked := true }]

/-- Default rating record used as the out-of-range element for indexed
access in proofs (never actually selected). -/
def dfltRating : Rating := { userId := "", movieId := "", rating := 0, liked := false }

/-! ## Helper lemmas on the stable sort -/

theorem stableInsertByLt_perm (lt : α → α → Bool) (a : α) (l : List α) :
    (stableInsertByLt lt a l).Perm (a :: l) := by
  induction l with
  | nil => simp [stableInsertByLt]
  | cons x xs ih =>
    simp only [stableInsertByLt]
    by_cases h : lt a x
    · simpa [h] using (ih.cons x).trans (List.Perm.swap a x xs)
    · simp [h]

theorem stableSortByLt_perm (lt : α → α → Bool) (l : List α) :
    (stableSortByLt lt l).Perm l := by
  induction l with
  | nil => simp [stableSortByLt]
  | cons x xs ih =>
    exact (stableInsertByLt_perm lt x (stableSortByLt lt xs)).trans (ih.cons x)

theorem mem_stableSortByLt (lt : α → α → Bool) (l : List α) (a : α) :
    a ∈ stableSortByLt lt l ↔ a ∈ l :=
  (stableSortByLt_perm lt l).mem_iff

theorem mem_stableInsertByLt (lt : α → α → Bool) (l : List α) (a b : α) :
    b ∈ stableInsertByLt lt a l ↔ b = a ∨ b ∈ l := by
  simpa using (stableInsertByLt_perm lt a l).mem_iff

theorem sorted_stableInsertByLt {β : Type} [LinearOrder β] (key : α → β) (a : α) (l : List α)
    (h : l.Sorted (fun x y => key y ≤ key x)) :
    (stableInsertByLt (fun u v => decide (key u < key v)) a l).Sorted
      (fun x y => key y ≤ key x) := by
  induction l with
  | nil => simp [stableInsertByLt]
  | cons x xs ih =>
    simp only [stableInsertByLt]
    by_cases hx : key a < key x
    · rw [if_pos (by simpa using hx), List.sorted_cons]
      refine ⟨fun b hb => ?_, ih h.of_cons⟩
      rcases (mem_stableInsertByLt _ _ _ _).mp hb with hba | hbxs
      · exact hba ▸ hx.le
      · exact (List.sorted_cons.mp h).1 b hbxs
    · rw [if_neg (by simpa using hx), List.sorted_cons]
      refine ⟨fun b hb => ?_, h⟩
      rcases List.mem_cons.mp hb with hbx | hbxs
      · exact hbx ▸ le_of_not_lt hx
      · exact ((List.sorted_cons.mp h).1 b hbxs).trans (le_of_not_lt hx)

theorem sorted_stableSortByLt {β : Type} [LinearOrder β] (key : α → β) (l : List α) :
    (stableSortByLt (fun u v => decide (key u < key v)) l).Sorted
      (fun x y => key y ≤ key x) := by
  induction l with
  | nil => simp [stableSortByLt]
  | cons x xs ih => exact sorted_stableInsertByLt key x _ ih

theorem filter_stableInsertByLt_of_eq {β : Type} [LinearOrder β] (key : α → β) (s : β)
    (a : α) (l : List α) (ha : key a = s) :
    (stableInsertByLt (fun u v => decide (key u < key v)) a l).filter
        (fun x => decide (key x = s)) =
      a :: l.filter (fun x => decide (key x = s)) := by
  induction l with
  | nil => simp [stableInsertByLt, List.filter_cons, ha]
  | cons x xs ih =>
    simp only [stableInsertByLt]
    by_cases hx : key a < key x
    · have hxne : ¬ key x = s := by
        intro hxs
        rw [ha] at hx
        rw [hxs] at hx
        exact lt_irrefl s hx
      rw [if_pos (by simpa using hx), List.filter_cons, if_neg (by simpa using hxne), ih,
        List.filter_cons, if_neg (by simpa using hxne)]
    · rw [if_neg (by simpa using hx), List.filter_cons, if_pos (by simpa using ha)]

theorem filter_stableInsertByLt_of_ne {β : Type} [LinearOrder β] (key : α → β) (s : β)
    (a : α) (l : List α) (ha : ¬ key a = s) :
    (stableInsertByLt (fun u v => decide (key u < key v)) a l).filter
        (fun x => decide (key x = s)) =
      l.filter (fun x => decide (key x = s)) := by
  induction l with
  | nil => simp [stableInsertByLt, List.filter_cons, ha]
  | cons x xs ih =>
    simp only [stableInsertByLt]
    by_cases hx : key a < key x
    · rw [if_pos (by simpa using hx), List.filter_cons, ih]
      by_cases hxs : key x = s
      · rw [if_pos (by simpa using hxs), List.filter_cons, if_pos (by simpa using hxs)]
      · rw [if_neg (by simpa using hxs), List.filter_cons, if_neg (by simpa using hxs)]
    · rw [if_neg (by simpa using hx), List.filter_cons, if_neg (by simpa using ha)]

/-- Stability of the modelled sort: within one score class the sorted output
lists exactly the input elements in their input order. -/
theorem filter_stableSortByLt {β : Type} [LinearOrder β] (key : α → β) (s : β) (l : List α) :
    (stableSortByLt (fun u v => decide (key u < key v)) l).filter
        (fun x => decide (key x = s)) =
      l.filter (fun x => decide (key x = s)) := by
  induction l with
  | nil => simp [stableSortByLt]
  | cons x xs ih =>
    simp only [stableSortByLt]
    by_cases hx : key x = s
    · rw [filter_stableInsertByLt_of_eq key s x _ hx, ih, List.filter_cons, if_pos (by simp [hx])]
    · rw [filter_stableInsertByLt_of_ne key s x _ hx, ih, List.filter_cons, if_neg (by simp [hx])]

/-! ## Helper lemmas on the popularity fallback -/

theorem popScore_map_score (k : ℕ) (l : List Movie) :
    (popScore k l).map (fun r => r.score) =
      (List.range l.length).map (fun i => 0.8 - ((k + i : ℕ) : ℝ) * 0.05) := by
  induction l generalizing k with
  | nil => simp [popScore]
  | cons m ms ih =>
    simp only [popScore, List.map_cons, List.length_cons, List.range_succ_eq_map,
      List.map_map, ih]
    congr 1
    apply List.map_congr_left
    intro i hi
    simp only [Function.comp_apply]
    push_cast
    ring

theorem popScore_movie_mem (k : ℕ) (l : List Movie) (r : Recommendation)
    (h : r ∈ popScore k l) : r.movie ∈ l := by
  induction l generalizing k with
  | nil => simp [popScore] at h
  | cons m ms ih =>
    simp only [popScore, List.mem_cons] at h
    rcases h with h | h
    · simp [h]
    · exact List.mem_cons_of_mem _ (ih (k + 1) h)

theorem popScore_score_le (k : ℕ) (l : List Movie) (r : Recommendation)
    (h : r ∈ popScore k l) : r.score ≤ 0.8 - (k : ℝ) * 0.05 := by
  induction l generalizing k with
  | nil => simp [popScore] at h
  | cons m ms ih =>
    simp only [popScore, List.mem_cons] at h
    rcases h with h | h
    · simp [h]
    · have hk : (0 : ℝ) ≤ (k : ℝ) := Nat.cast_nonneg k
      calc r.score ≤ 0.8 - ((k : ℝ) + 1) * 0.05 := by simpa [Nat.cast_add] using ih (k + 1) h
        _ ≤ 0.8 - (k : ℝ) * 0.05 := by linarith

theorem popScore_sorted (k : ℕ) (l : List Movie) :
    (popScore k l).Sorted (fun x y => y.score ≤ x.score) := by
  induction l generalizing k with
  | nil => simp [popScore]
  | cons m ms ih =>
    simp only [popScore]
    rw [List.sorted_cons]
    refine ⟨fun b hb => ?_, ih (k + 1)⟩
    have hk : (0 : ℝ) ≤ (k : ℝ) := Nat.cast_nonneg k
    calc b.score ≤ 0.8 - ((k : ℝ) + 1) * 0.05 := by
          simpa [Nat.cast_add] using popScore_score_le (k + 1) ms b hb
      _ ≤ 0.8 - (k : ℝ) * 0.05 := by linarith
      _ = ({ movie := m, score := 0.8 - (k : ℝ) * 0.05,
             reason := "Popular highly-rated movie" } : Recommendation).score := rfl

/-! ## Cauchy–Schwarz for the Pearson correlation -/

theorem list_map_sum_eq_range {α : Type} (l : List α) (d : α) (f : α → ℚ) :
    (l.map f).sum = ∑ i in Finset.range l.length, f (l.getD i d) := by
  induction l with
  | nil => simp
  | cons a as ih =>
    rw [List.map_cons, List.sum_cons, List.length_cons, Finset.sum_range_succ', ih]
    simp [add_comm]

theorem centered_expand (n : ℕ) (x y : ℕ → ℚ) (S1 S2 : ℚ) :
    (∑ i in Finset.range n, ((n : ℚ) * x i - S1) * ((n : ℚ) * y i - S2)) =
      (n : ℚ) * (n : ℚ) * (∑ i in Finset.range n, x i * y i) -
        (n : ℚ) * S2 * (∑ i in Finset.range n, x i) -
        (n : ℚ) * S1 * (∑ i in Finset.range n, y i) + (n : ℚ) * (S1 * S2) := by
  have h : ∀ i ∈ Finset.range n, ((n : ℚ) * x i - S1) * ((n : ℚ) * y i - S2) =
      (n : ℚ) * (n : ℚ) * (x i * y i) - (n : ℚ) * S2 * x i - (n : ℚ) * S1 * y i + S1 * S2 :=
    fun i _ => by ring
  rw [Finset.sum_congr rfl h, Finset.sum_add_distrib, Finset.sum_sub_distrib,
    Finset.sum_sub_distrib, ← Finset.mul_sum, ← Finset.mul_sum, ← Finset.mul_sum,
    Finset.sum_const, Finset.card_range, nsmul_eq_mul]

theorem centered_var_nonneg (n : ℕ) (hn : 0 < n) (x : ℕ → ℚ) :
    0 ≤ (∑ i in Finset.range n, x i * x i) -
        (∑ i in Finset.range n, x i) * (∑ i in Finset.range n, x i) / n := by
  have hn' : ((n : ℚ)) ≠ 0 := Nat.cast_ne_zero.mpr hn.ne'
  have key := Finset.sum_mul_sq_le_sq_mul_sq (Finset.range n) x (fun _ => (1 : ℚ))
  have e1 : (∑ i in Finset.range n, x i * (1 : ℚ)) = ∑ i in Finset.range n, x i := by
    simp
  have e2 : (∑ i in Finset.range n, x i ^ 2) = ∑ i in Finset.range n, x i * x i := by
    refine Finset.sum_congr rfl (fun i _ => ?_)
    ring
  have e3 : (∑ _i in Finset.range n, ((1 : ℚ)) ^ 2) = (n : ℚ) := by
    simp
  rw [e1, e2, e3] at key
  rw [sub_nonneg, div_le_iff₀ (by positivity)]
  calc (∑ i in Finset.range n, x i) * (∑ i in Finset.range n, x i)
      = (∑ i in Finset.range n, x i) ^ 2 := by ring
    _ ≤ (∑ i in Finset.range n, x i * x i) * (n : ℚ) := key

theorem centered_cauchy_schwarz (n : ℕ) (hn : 0 < n) (x y : ℕ → ℚ) :
    ((∑ i in Finset.range n, x i * y i) -
        (∑ i in Finset.range n, x i) * (∑ i in Finset.range n, y i) / n) ^ 2 ≤
      ((∑ i in Finset.range n, x i * x i) -
          (∑ i in Finset.range n, x i) * (∑ i in Finset.range n, x i) / n) *
        ((∑ i in Finset.range n, y i * y i) -
            (∑ i in Finset.range n, y i) * (∑ i in Finset.range n, y i) / n) := by
  have hn' : ((n : ℚ)) ≠ 0 := Nat.cast_ne_zero.mpr hn.ne'
  have hn2 : (0 : ℚ) < (n : ℚ) ^ 2 := by positivity
  set P := ∑ i in Finset.range n, x i * y i with hP
  set X2 := ∑ i in Finset.range n, x i * x i with hX2
  set Y2 := ∑ i in Finset.range n, y i * y i with hY2
  set S1 := ∑ i in Finset.range n, x i with hS1
  set S2 := ∑ i in Finset.range n, y i with hS2
  have key := Finset.sum_mul_sq_le_sq_mul_sq (Finset.range n)
    (fun i => (n : ℚ) * x i - S1) (fun i => (n : ℚ) * y i - S2)
  have e1 := centered_expand n x y S1 S2
  have e2 := centered_expand n x x S1 S1
  have e3 := centered_expand n y y S2 S2
  have es1 : (∑ i in Finset.range n, ((n : ℚ) * x i - S1) * ((n : ℚ) * y i - S2)) =
      (n : ℚ) * ((n : ℚ) * P - S1 * S2) := by
    rw [e1, ← hP, ← hS1, ← hS2]
    ring
  have es2 : (∑ i in Finset.range n, ((n : ℚ) * x i - S1) ^ 2) =
      (n : ℚ) * ((n : ℚ) * X2 - S1 * S1) := by
    have h : ∀ i ∈ Finset.range n, ((n : ℚ) * x i - S1) ^ 2 =
        ((n : ℚ) * x i - S1) * ((n : ℚ) * x i - S1) := fun i _ => by ring
    rw [Finset.sum_congr rfl h, e2, ← hX2, ← hS1]
    ring
  have es3 : (∑ i in Finset.range n, ((n : ℚ) * y i - S2) ^ 2) =
      (n : ℚ) * ((n : ℚ) * Y2 - S2 * S2) := by
    have h : ∀ i ∈ Finset.range n, ((n : ℚ) * y i - S2) ^ 2 =
        ((n : ℚ) * y i - S2) * ((n : ℚ) * y i - S2) := fun i _ => by ring
    rw [Finset.sum_congr rfl h, e3, ← hY2, ← hS2]
    ring
  rw [es1, es2, es3] at key
  have hA : ((n : ℚ) * P - S1 * S2) ^ 2 ≤
      ((n : ℚ) * X2 - S1 * S1) * ((n : ℚ) * Y2 - S2 * S2) := by
    have h2 : (n : ℚ) ^ 2 * (((n : ℚ) * P - S1 * S2) ^ 2) ≤
        (n : ℚ) ^ 2 * ((((n : ℚ) * X2 - S1 * S1)) * (((n : ℚ) * Y2 - S2 * S2))) := by
      nlinarith [key]
    exact le_of_mul_le_mul_left h2 hn2
  have r1 : P - S1 * S2 / n = ((n : ℚ) * P - S1 * S2) / n := by
    field_simp
    ring
  have r2 : X2 - S1 * S1 / n = ((n : ℚ) * X2 - S1 * S1) / n := by
    field_simp
    ring
  have r3 : Y2 - S2 * S2 / n = ((n : ℚ) * Y2 - S2 * S2) / n := by
    field_simp
    ring
  rw [r1, r2, r3, div_pow, div_mul_div_comm]
  have hnn : (0 : ℚ) < (n : ℚ) * (n : ℚ) := by positivity
  have hpow : ((n : ℚ)) ^ 2 = (n : ℚ) * (n : ℚ) := by ring
  rw [hpow]
  exact (div_le_div_iff_of_pos_right hnn).mpr hA

theorem pearson_num_sq_le (a b : List Rating) (hn : 0 < (commonMovies a b).length) :
    pearsonNum a b ^ 2 ≤ pearsonVar1 a b * pearsonVar2 a b := by
  have hs1 : pearsonSum1 a b = ∑ i in Finset.range (commonMovies a b).length,
      ((commonMovies a b).getD i dfltRating).rating :=
    list_map_sum_eq_range (commonMovies a b) dfltRating (fun r => r.rating)
  have hs2 : pearsonSum2 a b = ∑ i in Finset.range (commonMovies a b).length,
      ratingOf b ((commonMovies a b).getD i dfltRating).movieId :=
    list_map_sum_eq_range (commonMovies a b) dfltRating (fun r1 => ratingOf b r1.movieId)
  have hs1q : pearsonSum1Sq a b = ∑ i in Finset.range (commonMovies a b).length,
      ((commonMovies a b).getD i dfltRating).rating *
        ((commonMovies a b).getD i dfltRating).rating :=
    list_map_sum_eq_range (commonMovies a b) dfltRating (fun r => r.rating * r.rating)
  have hs2q : pearsonSum2Sq a b = ∑ i in Finset.range (commonMovies a b).length,
      ratingOf b ((commonMovies a b).getD i dfltRating).movieId *
        ratingOf b ((commonMovies a b).getD i dfltRating).movieId :=
    list_map_sum_eq_range (commonMovies a b) dfltRating
      (fun r1 => ratingOf b r1.movieId * ratingOf b r1.movieId)
  have hps : pearsonPSum a b = ∑ i in Finset.range (commonMovies a b).length,
      ((commonMovies a b).getD i dfltRating).rating *
        ratingOf b ((commonMovies a b).getD i dfltRating).movieId :=
    list_map_sum_eq_range (commonMovies a b) dfltRating
      (fun r1 => r1.rating * ratingOf b r1.movieId)
  have hN : pearsonN a b = (((commonMovies a b).length : ℕ) : ℚ) := rfl
  rw [pearsonNum, pearsonVar1, pearsonVar2, hs1, hs2, hs1q, hs2q, hps, hN]
  exact centered_cauchy_schwarz (commonMovies a b).length hn
    (fun i => ((commonMovies a b).getD i dfltRating).rating)
    (fun i => ratingOf b ((commonMovies a b).getD i dfltRating).movieId)

theorem pearson_var1_nonneg (a b : List Rating) (hn : 0 < (commonMovies a b).length) :
    0 ≤ pearsonVar1 a b := by
  have hs1 : pearsonSum1 a b = ∑ i in Finset.range (commonMovies a b).length,
      ((commonMovies a b).getD i dfltRating).rating :=
    list_map_sum_eq_range (commonMovies a b) dfltRating (fun r => r.rating)
  have hs1q : pearsonSum1Sq a b = ∑ i in Finset.range (commonMovies a b).length,
      ((commonMovies a b).getD i dfltRating).rating *
        ((commonMovies a b).getD i dfltRating).rating :=
    list_map_sum_eq_range (commonMovies a b) dfltRating (fun r => r.rating * r.rating)
  have hN : pearsonN a b = (((commonMovies a b).length : ℕ) : ℚ) := rfl
  rw [pearsonVar1, hs1, hs1q, hN]
  exact centered_var_nonneg (commonMovies a b).length hn
    (fun i => ((commonMovies a b).getD i dfltRating).rating)

theorem pearson_var2_nonneg (a b : List Rating) (hn : 0 < (commonMovies a b).length) :
    0 ≤ pearsonVar2 a b := by
  have hs2 : pearsonSum2 a b = ∑ i in Finset.range (commonMovies a b).length,
      ratingOf b ((commonMovies a b).getD i dfltRating).movieId :=
    list_map_sum_eq_range (commonMovies a b) dfltRating (fun r1 => ratingOf b r1.movieId)
  have hs2q : pearsonSum2Sq a b = ∑ i in Finset.range (commonMovies a b).length,
      ratingOf b ((commonMovies a b).getD i dfltRating).movieId *
        ratingOf b ((commonMovies a b).getD i dfltRating).movieId :=
    list_map_sum_eq_range (commonMovies a b) dfltRating
      (fun r1 => ratingOf b r1.movieId * ratingOf b r1.movieId)
  have hN : pearsonN a b = (((commonMovies a b).length : ℕ) : ℚ) := rfl
  rw [pearsonVar2, hs2, hs2q, hN]
  exact centered_var_nonneg (commonMovies a b).length hn
    (fun i => ratingOf b ((commonMovies a b).getD i dfltRating).movieId)

/-- Claim C5: `calculateUserSimilarity` is total and always yields a value in
`[-1, 1]`; it is exactly `0` whenever fewer than 2 movies are shared, and
exactly `0` whenever the Pearson denominator vanishes (zero variance in
either restricted vector).  Totality — "never NaN and never an exception" —
holds by construction of the embedding: both division guards of the source
are modelled, so the value is defined for every input. -/
theorem C5_similarity_total_bounded_and_zero :
    (∀ a b : List Rating, calculateUserSimilarity a b ∈ Set.Icc (-1 : ℝ) 1) ∧
    (∀ a b : List Rating, (commonMovies a b).length < 2 → calculateUserSimilarity a b = 0) ∧
    (∀ a b : List Rating, pearsonVar1 a b * pearsonVar2 a b = 0 →
      calculateUserSimilarity a b = 0) := by
  refine ⟨fun a b => ?_, fun a b h => ?_, fun a b h => ?_⟩
  · by_cases h2 : (commonMovies a b).length < 2
    · rw [calculateUserSimilarity, if_pos h2, Set.mem_Icc]
      constructor <;> norm_num
    · by_cases hd : pearsonDen a b = 0
      · rw [calculateUserSimilarity, if_neg h2, if_pos hd, Set.mem_Icc]
        constructor <;> norm_num
      · have hn : 0 < (commonMovies a b).length := by omega
        have hv1 := pearson_var1_nonneg a b hn
        have hv2 := pearson_var2_nonneg a b hn
        have hnum := pearson_num_sq_le a b hn
        have hprod : (0 : ℚ) ≤ pearsonVar1 a b * pearsonVar2 a b := mul_nonneg hv1 hv2
        have hden_sq : pearsonDen a b ^ 2 = ((pearsonVar1 a b * pearsonVar2 a b : ℚ) : ℝ) := by
          rw [pearsonDen, Real.sq_sqrt (by exact_mod_cast hprod)]
        have hden_nonneg : (0 : ℝ) ≤ pearsonDen a b := Real.sqrt_nonneg _
        have hden_pos : (0 : ℝ) < pearsonDen a b := lt_of_le_of_ne hden_nonneg (Ne.symm hd)
        have hnumR : ((pearsonNum a b : ℚ) : ℝ) ^ 2 ≤ pearsonDen a b ^ 2 := by
          rw [hden_sq]
          exact_mod_cast hnum
        have habs : |((pearsonNum a b : ℚ) : ℝ)| ≤ pearsonDen a b := by
          have hmono := Real.sqrt_le_sqrt hnumR
          rwa [Real.sqrt_sq_eq_abs, Real.sqrt_sq hden_nonneg] at hmono
        rw [calculateUserSimilarity, if_neg h2, if_neg hd, Set.mem_Icc]
        have hq : |((pearsonNum a b : ℚ) : ℝ) / pearsonDen a b| ≤ 1 := by
          rw [abs_div, abs_of_pos hden_pos]
          exact (div_le_one hden_pos).mpr habs
        exact abs_le.mp hq
  · rw [calculateUserSimilarity, if_pos h]
  · by_cases h2 : (commonMovies a b).length < 2
    · rw [calculateUserSimilarity, if_pos h2]
    · have hd : pearsonDen a b = 0 := by
        rw [pearsonDen, h]
        simp
      rw [calculateUserSimilarity, if_neg h2, if_pos hd]

/-- Witness for C5 at the spec's worked example: U1 rated `[5, 5]`, U2 rated
`[5, 4]` over the shared movies, so the variance of U1's restricted vector is
0, the denominator is 0, and the similarity is exactly 0 (and in `[-1, 1]`)
even though 2 movies are shared. -/
theorem C5_witness :
    pearsonVar1 specU1 specU2 * pearsonVar2 specU1 specU2 = 0 ∧
      calculateUserSimilarity specU1 specU2 = 0 ∧
      calculateUserSimilarity specU1 specU2 ∈ Set.Icc (-1 : ℝ) 1 ∧
      (commonMovies specU1 specU2).length = 2 :=
  have hvar : pearsonVar1 specU1 specU2 * pearsonVar2 specU1 specU2 = 0 := by
    norm_num [pearsonVar1, pearsonVar2, pearsonSum1, pearsonSum1Sq, pearsonSum2,
      pearsonSum2Sq, pearsonN, commonMovies, ratingOf, specU1, specU2, List.filter,
      List.find?]
  ⟨hvar,
   C5_similarity_total_bounded_and_zero.2.2 specU1 specU2 hvar,
   C5_similarity_total_bounded_and_zero.1 specU1 specU2,
   by decide⟩

/-! ## Symmetry of the similarity (claim C6) -/

theorem find?_self_of_nodup (a : List Rating)
    (ha : (a.map (fun r => r.movieId)).Nodup) (r : Rating) (hr : r ∈ a) :
    a.find? (fun r2 => r2.movieId == r.movieId) = some r := by
  induction a with
  | nil => cases hr
  | cons x xs ih =>
    rw [List.map_cons, List.nodup_cons] at ha
    rcases List.mem_cons.mp hr with h | h
    · subst h
      exact List.find?_cons_of_pos _ (by simp)
    · have hx : ¬ ((x.movieId == r.movieId) = true) := by
        simp only [beq_iff_eq]
        intro he
        exact ha.1 (he ▸ List.mem_map_of_mem (fun r => r.movieId) h)
      have hstep : List.find? (fun r2 => r2.movieId == r.movieId) (x :: xs) =
          List.find? (fun r2 => r2.movieId == r.movieId) xs :=
        List.find?_cons_of_neg xs hx
      rw [hstep]
      exact ih ha.2 h

theorem ratingOf_mem_of_nodup (a : List Rating)
    (ha : (a.map (fun r => r.movieId)).Nodup) (r : Rating) (hr : r ∈ a) :
    ratingOf a r.movieId = r.rating := by
  rw [ratingOf, find?_self_of_nodup a ha r hr]

theorem commonMovies_map_movieId (a b : List Rating) :
    (commonMovies a b).map (fun r => r.movieId) =
      (a.map (fun r => r.movieId)).filter
        (fun m => b.any (fun r2 => r2.movieId == m)) := by
  induction a with
  | nil => rfl
  | cons x xs ih =>
    show ((x :: xs).filter _).map _ = _
    rw [List.filter_cons, List.map_cons, List.filter_cons]
    by_cases h : (b.any (fun r2 => r2.movieId == x.movieId)) = true
    · rw [if_pos h, if_pos h, List.map_cons]
      exact congrArg (List.cons x.movieId) ih
    · rw [if_neg h, if_neg h]
      exact ih

/-- The finite set of movie identities rated by both subjects. -/
theorem common_toFinset (a b : List Rating) :
    ((commonMovies a b).map (fun r => r.movieId)).toFinset =
      (a.map (fun r => r.movieId)).toFinset ∩ (b.map (fun r => r.movieId)).toFinset := by
  rw [commonMovies_map_movieId, List.toFinset_filter]
  ext m
  simp only [Finset.mem_filter, Finset.mem_inter, List.mem_toFinset, List.mem_map,
    List.any_eq_true, beq_iff_eq, decide_eq_true_eq]

theorem common_length_eq (a b : List Rating)
    (ha : (a.map (fun r => r.movieId)).Nodup) :
    (commonMovies a b).length =
      ((a.map (fun r => r.movieId)).toFinset ∩ (b.map (fun r => r.movieId)).toFinset).card := by
  have hnodup : ((commonMovies a b).map (fun r => r.movieId)).Nodup := by
    rw [commonMovies_map_movieId]
    exact ha.filter _
  rw [← common_toFinset a b, List.toFinset_card_of_nodup hnodup, List.length_map]

theorem common_sum_eq (a b : List Rating)
    (ha : (a.map (fun r => r.movieId)).Nodup) (g : ℚ → ℚ → ℚ) :
    ((commonMovies a b).map (fun r1 => g r1.rating (ratingOf b r1.movieId))).sum =
      ∑ m in (a.map (fun r => r.movieId)).toFinset ∩ (b.map (fun r => r.movieId)).toFinset,
        g (ratingOf a m) (ratingOf b m) := by
  have hnodup : ((commonMovies a b).map (fun r => r.movieId)).Nodup := by
    rw [commonMovies_map_movieId]
    exact ha.filter _
  have h1 : ((commonMovies a b).map (fun r1 => g r1.rating (ratingOf b r1.movieId))) =
      (commonMovies a b).map (fun r1 => g (ratingOf a r1.movieId) (ratingOf b r1.movieId)) := by
    apply List.map_congr_left
    intro r hr
    rw [ratingOf_mem_of_nodup a ha r (List.mem_of_mem_filter hr)]
  have h2 : ((commonMovies a b).map
        (fun r1 => g (ratingOf a r1.movieId) (ratingOf b r1.movieId))) =
      ((commonMovies a b).map (fun r => r.movieId)).map
        (fun m => g (ratingOf a m) (ratingOf b m)) := by
    rw [List.map_map]
    rfl
  rw [h1, h2, ← List.sum_toFinset _ hnodup, common_toFinset a b]

/-- Claim C6: under the data-model invariant "at most one rating per
(subject, item)" — i.e. no duplicate movie identities inside either rating
vector — the Pearson similarity is symmetric. -/
theorem C6_similarity_symmetric (a b : List Rating)
    (ha : (a.map (fun r => r.movieId)).Nodup)
    (hb : (b.map (fun r => r.movieId)).Nodup) :
    calculateUserSimilarity a b = calculateUserSimilarity b a := by
  set A := (a.map (fun r => r.movieId)).toFinset with hA
  set B := (b.map (fun r => r.movieId)).toFinset with hB
  have hcomm : B ∩ A = A ∩ B := Finset.inter_comm B A
  have hs1ab : pearsonSum1 a b = ∑ m in A ∩ B, ratingOf a m := by
    simpa [pearsonSum1] using common_sum_eq a b ha (fun x _ => x)
  have hs2ab : pearsonSum2 a b = ∑ m in A ∩ B, ratingOf b m := by
    simpa [pearsonSum2] using common_sum_eq a b ha (fun _ y => y)
  have hs1qab : pearsonSum1Sq a b = ∑ m in A ∩ B, ratingOf a m * ratingOf a m := by
    simpa [pearsonSum1Sq] using common_sum_eq a b ha (fun x _ => x * x)
  have hs2qab : pearsonSum2Sq a b = ∑ m in A ∩ B, ratingOf b m * ratingOf b m := by
    simpa [pearsonSum2Sq] using common_sum_eq a b ha (fun _ y => y * y)
  have hpsab : pearsonPSum a b = ∑ m in A ∩ B, ratingOf a m * ratingOf b m := by
    simpa [pearsonPSum] using common_sum_eq a b ha (fun x y => x * y)
  have hs1ba : pearsonSum1 b a = ∑ m in A ∩ B, ratingOf b m := by
    simpa [pearsonSum1, hcomm] using common_sum_eq b a hb (fun x _ => x)
  have hs2ba : pearsonSum2 b a = ∑ m in A ∩ B, ratingOf a m := by
    simpa [pearsonSum2, hcomm] using common_sum_eq b a hb (fun _ y => y)
  have hs1qba : pearsonSum1Sq b a = ∑ m in A ∩ B, ratingOf b m * ratingOf b m := by
    simpa [pearsonSum1Sq, hcomm] using common_sum_eq b a hb (fun x _ => x * x)
  have hs2qba : pearsonSum2Sq b a = ∑ m in A ∩ B, ratingOf a m * ratingOf a m := by
    simpa [pearsonSum2Sq, hcomm] using common_sum_eq b a hb (fun _ y => y * y)
  have hpsba : pearsonPSum b a = ∑ m in A ∩ B, ratingOf b m * ratingOf a m := by
    simpa [pearsonPSum, hcomm] using common_sum_eq b a hb (fun x y => x * y)
  have hps_comm : (∑ m in A ∩ B, ratingOf b m * ratingOf a m) =
      ∑ m in A ∩ B, ratingOf a m * ratingOf b m :=
    Finset.sum_congr rfl (fun m _ => mul_comm _ _)
  have hlab : (commonMovies a b).length = (A ∩ B).card := common_length_eq a b ha
  have hlba : (commonMovies b a).length = (A ∩ B).card := by
    rw [common_length_eq b a hb, hcomm]
  have hN : pearsonN b a = pearsonN a b := by
    rw [pearsonN, pearsonN, hlab, hlba]
  have hnum : pearsonNum b a = pearsonNum a b := by
    rw [pearsonNum, pearsonNum, hpsab, hs1ab, hs2ab, hpsba, hs1ba, hs2ba, hN, hps_comm]
    ring
  have hvar1 : pearsonVar1 b a = pearsonVar2 a b := by
    rw [pearsonVar1, pearsonVar2, hs1qba, hs1ba, hs2qab, hs2ab, hN]
  have hvar2 : pearsonVar2 b a = pearsonVar1 a b := by
    rw [pearsonVar2, pearsonVar1, hs2qba, hs2ba, hs1qab, hs1ab, hN]
  have hden : pearsonDen b a = pearsonDen a b := by
    rw [pearsonDen, pearsonDen, hvar1, hvar2,
      mul_comm (pearsonVar2 a b) (pearsonVar1 a b)]
  simp only [calculateUserSimilarity]
  rw [hlab, hlba, hnum, hden]

/-- Witness for C6 at the spec's example vectors (their movie-identity lists
are duplicate-free). -/
theorem C6_witness :
    calculateUserSimilarity specU1 specU2 = calculateUserSimilarity specU2 specU1 :=
  C6_similarity_symmetric specU1 specU2 (by decide) (by decide)

/-! ## Cache invalidation scope (claim C9) -/

theorem mem_cacheDel {α : Type} (c : List (List Char × α)) (k : List Char)
    (p : List Char × α) : p ∈ cacheDel c k ↔ p ∈ c ∧ p.1 ≠ k := by
  simp [cacheDel, List.mem_filter]

theorem foldl_del_mem {α : Type} (P : List Char → Bool) (ks : List (List Char))
    (c : List (List Char × α)) (p : List Char × α) :
    p ∈ ks.foldl (fun acc k => if P k then cacheDel acc k else acc) c ↔
      p ∈ c ∧ ∀ k ∈ ks, P k = true → p.1 ≠ k := by
  induction ks generalizing c with
  | nil => simp
  | cons k ks ih =>
    rw [List.foldl_cons]
    by_cases h : P k = true
    · rw [if_pos h, ih]
      simp only [mem_cacheDel, List.mem_cons]
      constructor
      · rintro ⟨⟨hpc, hpk⟩, hall⟩
        refine ⟨hpc, fun k' hk' hPk' => ?_⟩
        rcases hk' with rfl | hk'
        · exact hpk
        · exact hall k' hk' hPk'
      · rintro ⟨hpc, hall⟩
        exact ⟨⟨hpc, hall k (Or.inl rfl) h⟩, fun k' hk' hp => hall k' (Or.inr hk') hp⟩
    · rw [if_neg h, ih]
      constructor
      · rintro ⟨hpc, hall⟩
        refine ⟨hpc, fun k' hk' hPk' => ?_⟩
        rcases List.mem_cons.mp hk' with rfl | hk'
        · exact absurd hPk' h
        · exact hall k' hk' hPk'
      · rintro ⟨hpc, hall⟩
        exact ⟨hpc, fun k' hk' hp => hall k' (List.mem_cons_of_mem _ hk') hp⟩

theorem mem_invalidateUserRecommendations {α : Type} (u : List Char)
    (c : List (List Char × α)) (p : List Char × α) :
    p ∈ invalidateUserRecommendations u c ↔
      p ∈ c ∧ ¬ hasPre (userRecStub u) p.1 = true := by
  rw [invalidateUserRecommendations, foldl_del_mem]
  constructor
  · rintro ⟨hpc, hall⟩
    exact ⟨hpc, fun hpre => hall p.1 (List.mem_map_of_mem (fun q => q.1) hpc) hpre rfl⟩
  · rintro ⟨hpc, hnp⟩
    exact ⟨hpc, fun k _ hPk hpk => hnp (hpk ▸ hPk)⟩

theorem mem_invalidateAllRecommendations {α : Type} (c : List (List Char × α))
    (p : List Char × α) :
    p ∈ invalidateAllRecommendations c ↔ p ∈ c ∧ ¬ hasPre recKeyHead p.1 = true := by
  rw [invalidateAllRecommendations, foldl_del_mem]
  constructor
  · rintro ⟨hpc, hall⟩
    exact ⟨hpc, fun hpre => hall p.1 (List.mem_map_of_mem (fun q => q.1) hpc) hpre rfl⟩
  · rintro ⟨hpc, hnp⟩
    exact ⟨hpc, fun k _ hPk hpk => hnp (hpk ▸ hPk)⟩

theorem hasPre_append (p t : List Char) : hasPre p (p ++ t) = true := by
  induction p with
  | nil => simp [hasPre]
  | cons c cs ih => simp [hasPre, ih]

theorem hasPre_iff_exists (p s : List Char) : hasPre p s = true ↔ ∃ t, s = p ++ t := by
  induction p generalizing s with
  | nil => simp [hasPre]
  | cons c cs ih =>
    cases s with
    | nil => simp [hasPre]
    | cons d ds =>
      simp only [hasPre, Bool.and_eq_true, beq_iff_eq, ih, List.cons_append]
      constructor
      · rintro ⟨rfl, t, rfl⟩
        exact ⟨t, rfl⟩
      · rintro ⟨t, ht⟩
        obtain ⟨h1, h2⟩ := List.cons.injEq d ds c (cs ++ t) ▸ ht
        exact ⟨h1.symm ▸ rfl, t, h2⟩

theorem append_dash_inj (u : List Char) :
    ∀ (u' t t' : List Char), ('-' : Char) ∉ u → ('-' : Char) ∉ u' →
      u ++ '-' :: t = u' ++ '-' :: t' → u = u' := by
  induction u with
  | nil =>
    intro u' t t' hu hu' h
    cases u' with
    | nil => rfl
    | cons c cs =>
      rw [List.nil_append, List.cons_append] at h
      have hc : ('-' : Char) = c := (List.cons_eq_cons.mp h).1
      exact absurd (hc ▸ List.mem_cons_self c cs) hu'
  | cons c cs ih =>
    intro u' t t' hu hu' h
    cases u' with
    | nil =>
      rw [List.nil_append, List.cons_append] at h
      have hc : c = ('-' : Char) := (List.cons_eq_cons.mp h).1
      exact absurd (hc ▸ List.mem_cons_self c cs) hu
    | cons c' cs' =>
      rw [List.cons_append, List.cons_append] at h
      obtain ⟨h1, h2⟩ := List.cons_eq_cons.mp h
      have hcs : cs = cs' :=
        ih cs' t t' (fun hm => hu (List.mem_cons_of_mem c hm))
          (fun hm => hu' (List.mem_cons_of_mem c' hm)) h2
      rw [h1, hcs]

theorem hasPre_stub_self (u alg : List Char) :
    hasPre (userRecStub u) (recKeyOf u alg) = true := by
  have h : recKeyOf u alg = userRecStub u ++ alg := by
    simp [recKeyOf, userRecStub, List.append_assoc]
  rw [h]
  exact hasPre_append _ _

theorem hasPre_head_recKey (u alg : List Char) :
    hasPre recKeyHead (recKeyOf u alg) = true := by
  have h : recKeyOf u alg = recKeyHead ++ (u ++ '-' :: alg) := by
    simp [recKeyOf, List.append_assoc]
  rw [h]
  exact hasPre_append _ _

theorem hasPre_stub_of_other_user (u u' alg : List Char) (hu : ('-' : Char) ∉ u)
    (hu' : ('-' : Char) ∉ u') (hne : u' ≠ u) :
    ¬ hasPre (userRecStub u) (recKeyOf u' alg) = true := by
  intro hpre
  obtain ⟨t, ht⟩ := (hasPre_iff_exists _ _).mp hpre
  have ht' : recKeyHead ++ (u' ++ '-' :: alg) = recKeyHead ++ (u ++ '-' :: t) := by
    have h1 : recKeyOf u' alg = recKeyHead ++ (u' ++ '-' :: alg) := by
      simp [recKeyOf, List.append_assoc]
    have h2 : userRecStub u ++ t = recKeyHead ++ (u ++ '-' :: t) := by
      simp [userRecStub, List.append_assoc]
    rw [← h1, ← h2, ht]
  have hmid : u' ++ '-' :: alg = u ++ '-' :: t := List.append_cancel_left ht'
  exact hne (append_dash_inj u' u alg t hu' hu hmid)

theorem hasPre_head_of_stub (u s : List Char) (h : hasPre (userRecStub u) s = true) :
    hasPre recKeyHead s = true := by
  obtain ⟨t, rfl⟩ := (hasPre_iff_exists _ _).mp h
  have he : userRecStub u ++ t = recKeyHead ++ (u ++ '-' :: t) := by
    simp [userRecStub, List.append_assoc]
  rw [he]
  exact hasPre_append _ _

/-- Claim C9: `onUserRating(subjectId)` deletes exactly the cached
recommendation entries keyed to that subject — every `recommendations-u-alg`
entry of the subject is gone, every other subject's entry and every
non-recommendation entry survives unchanged — while
`onMovieUpdate`/`onMovieCreate`/`onMovieDelete` delete all cached
recommendation entries for every subject and strategy.  Subject identities
are hyphen-free (Prisma `cuid()` identifiers), which the exactness part
needs to rule out prefix aliasing between subject keys. -/
theorem C9_cache_invalidation_scope {α : Type} :
    (∀ (c : List (List Char × α)) (u alg : List Char) (v : α),
        (recKeyOf u alg, v) ∉ onUserRating u c) ∧
    (∀ (c : List (List Char × α)) (u u' alg : List Char) (v : α),
        ('-' : Char) ∉ u → ('-' : Char) ∉ u' → u' ≠ u →
        ((recKeyOf u' alg, v) ∈ onUserRating u c ↔ (recKeyOf u' alg, v) ∈ c)) ∧
    (∀ (c : List (List Char × α)) (u : List Char) (p : List Char × α),
        ¬ hasPre recKeyHead p.1 = true → (p ∈ onUserRating u c ↔ p ∈ c)) ∧
    (∀ (c : List (List Char × α)) (mid u alg : List Char) (v : α),
        (recKeyOf u alg, v) ∉ onMovieUpdate mid c) ∧
    (∀ (c : List (List Char × α)) (u alg : List Char) (v : α),
        (recKeyOf u alg, v) ∉ onMovieCreate c) ∧
    (∀ (c : List (List Char × α)) (mid u alg : List Char) (v : α),
        (recKeyOf u alg, v) ∉ onMovieDelete mid c) := by
  refine ⟨fun c u alg v hmem => ?_, fun c u u' alg v hu hu' hne => ?_,
    fun c u p hp => ?_, fun c mid u alg v hmem => ?_, fun c u alg v hmem => ?_,
    fun c mid u alg v hmem => ?_⟩
  · exact ((mem_invalidateUserRecommendations u c _).mp hmem).2 (hasPre_stub_self u alg)
  · rw [onUserRating, mem_invalidateUserRecommendations]
    have hfalse := hasPre_stub_of_other_user u u' alg hu hu' hne
    exact ⟨fun h => h.1, fun h => ⟨h, hfalse⟩⟩
  · rw [onUserRating, mem_invalidateUserRecommendations]
    exact ⟨fun h => h.1, fun h => ⟨h, fun hpre => hp (hasPre_head_of_stub u p.1 hpre)⟩⟩
  · exact ((mem_invalidateAllRecommendations _ _).mp hmem).2 (hasPre_head_recKey u alg)
  · exact ((mem_invalidateAllRecommendations _ _).mp hmem).2 (hasPre_head_recKey u alg)
  · exact ((mem_invalidateAllRecommendations _ _).mp hmem).2 (hasPre_head_recKey u alg)

/-- Witness for C9 on a concrete cache holding entries of subjects `u1` and
`u2` plus the movie-list entry: invalidating `u1`'s ratings removes exactly
`u1`'s recommendation entry. -/
theorem C9_witness :
    (recKeyOf "u1".data "hybrid".data, (1 : ℕ)) ∉ onUserRating "u1".data cacheEx ∧
    ((recKeyOf "u2".data "content".data, (2 : ℕ)) ∈ onUserRating "u1".data cacheEx ↔
      (recKeyOf "u2".data "content".data, (2 : ℕ)) ∈ cacheEx) ∧
    (("all-movies".data, (3 : ℕ)) ∈ onUserRating "u1".data cacheEx ↔
      ("all-movies".data, (3 : ℕ)) ∈ cacheEx) ∧
    (recKeyOf "u2".data "content".data, (2 : ℕ)) ∉ onMovieUpdate "m9".data cacheEx :=
  ⟨C9_cache_invalidation_scope.1 cacheEx "u1".data "hybrid".data 1,
   C9_cache_invalidation_scope.2.1 cacheEx "u1".data "u2".data "content".data 2
     (by decide) (by decide) (by decide),
   C9_cache_invalidation_scope.2.2.1 cacheEx "u1".data ("all-movies".data, 3) (by decide),
   C9_cache_invalidation_scope.2.2.2.1 cacheEx "m9".data "u2".data "content".data 2⟩

/-! ## Request validation (claim C8) -/

theorem parseAlgorithmField_unknown (s : String) (hs : s ∉ algorithmEnum) :
    parseAlgorithmField (some (processQueryValue s)) = none := by
  rw [processQueryValue]
  rcases hj : jsStringToNumber s with _ | q
  · by_cases ht : (s == "true") = true
    · simp [ht, parseAlgorithmField]
    · by_cases hf : (s == "false") = true
      · simp [ht, hf, parseAlgorithmField]
      · simp only [Bool.not_eq_true] at ht hf
        simp [ht, hf, parseAlgorithmField, hs]
  · simp [parseAlgorithmField]

theorem parseLimitField_nonpositive (ls : String) (q : ℚ) (hq : jsStringToNumber ls = some q)
    (hle : q ≤ 0) : parseLimitField (some (processQueryValue ls)) = none := by
  rw [processQueryValue, hq]
  simp only [parseLimitField]
  rw [if_neg]
  rintro ⟨-, h1, -⟩
  linarith

/-- Claim C8: a request whose `algorithm` query value is not one of the four
known strategies, or whose `limit` query value is a non-positive number, is
rejected by the validation middleware (HTTP 400) and never dispatched to any
recommender — in particular never silently substituted by the controller's
`default:` arm. -/
theorem C8_invalid_request_rejected :
    (∀ (raw : RawQuery) (s : String), raw.algorithm = some s → s ∉ algorithmEnum →
        handleGetRecommendations raw = .rejected) ∧
    (∀ (raw : RawQuery) (ls : String) (q : ℚ), raw.limit = some ls →
        jsStringToNumber ls = some q → q ≤ 0 →
        handleGetRecommendations raw = .rejected) := by
  constructor
  · intro raw s halg hs
    rw [handleGetRecommendations, halg]
    simp only [Option.map_some']
    rw [parseAlgorithmField_unknown s hs]
  · intro raw ls q hlim hq hle
    rw [handleGetRecommendations, hlim]
    simp only [Option.map_some']
    rw [parseLimitField_nonpositive ls q hq hle]
    rcases parseAlgorithmField (raw.algorithm.map processQueryValue) with _ | a <;> rfl

/-- Witness for C8: the unknown strategy name `"foo"` and the non-positive
limit `"0"` are both rejected. -/
theorem C8_witness :
    ("foo" : String) ∉ algorithmEnum ∧
    handleGetRecommendations { algorithm := some "foo", limit := some "10" } = .rejected ∧
    jsStringToNumber "0" = some 0 ∧
    handleGetRecommendations { algorithm := some "collaborative", limit := some "0" } =
      .rejected :=
  ⟨by decide,
   C8_invalid_request_rejected.1 { algorithm := some "foo", limit := some "10" } "foo"
     rfl (by decide),
   by decide,
   C8_invalid_request_rejected.2 { algorithm := some "collaborative", limit := some "0" }
     "0" 0 rfl (by decide) (le_refl 0)⟩

/-! ## Concrete evaluations of the engine scenarios -/

theorem exDB_sim_eval : calculateUserSimilarity
    [{ userId := "t", movieId := "m1", rating := 4, liked := true },
     { userId := "t", movieId := "m2", rating := 5, liked := true }]
    [{ userId := "u", movieId := "m1", rating := 4, liked := false },
     { userId := "u", movieId := "m2", rating := 5, liked := false },
     { userId := "u", movieId := "m3", rating := 5, liked := true }] = 1 := by
  have hcommon : commonMovies
      [{ userId := "t", movieId := "m1", rating := 4, liked := true },
       { userId := "t", movieId := "m2", rating := 5, liked := true }]
      [{ userId := "u", movieId := "m1", rating := 4, liked := false },
       { userId := "u", movieId := "m2", rating := 5, liked := false },
       { userId := "u", movieId := "m3", rating := 5, liked := true }] =
      [{ userId := "t", movieId := "m1", rating := 4, liked := true },
       { userId := "t", movieId := "m2", rating := 5, liked := true }] := by decide
  have hr1 : ratingOf
      [{ userId := "u", movieId := "m1", rating := 4, liked := false },
       { userId := "u", movieId := "m2", rating := 5, liked := false },
       { userId := "u", movieId := "m3", rating := 5, liked := true }] "m1" = 4 := by decide
  have hr2 : ratingOf
      [{ userId := "u", movieId := "m1", rating := 4, liked := false },
       { userId := "u", movieId := "m2", rating := 5, liked := false },
       { userId := "u", movieId := "m3", rating := 5, liked := true }] "m2" = 5 := by decide
  have hv1 : pearsonVar1
      [{ userId := "t", movieId := "m1", rating := 4, liked := true },
       { userId := "t", movieId := "m2", rating := 5, liked := true }]
      [{ userId := "u", movieId := "m1", rating := 4, liked := false },
       { userId := "u", movieId := "m2", rating := 5, liked := false },
       { userId := "u", movieId := "m3", rating := 5, liked := true }] = 1/2 := by
    norm_num [pearsonVar1, pearsonSum1, pearsonSum1Sq, pearsonN, hcommon]
  have hv2 : pearsonVar2
      [{ userId := "t", movieId := "m1", rating := 4, liked := true },
       { userId := "t", movieId := "m2", rating := 5, liked := true }]
      [{ userId := "u", movieId := "m1", rating := 4, liked := false },
       { userId := "u", movieId := "m2", rating := 5, liked := false },
       { userId := "u", movieId := "m3", rating := 5, liked := true }] = 1/2 := by
    norm_num [pearsonVar2, pearsonSum2, pearsonSum2Sq, pearsonN, hcommon, hr1, hr2]
  have hnum : pearsonNum
      [{ userId := "t", movieId := "m1", rating := 4, liked := true },
       { userId := "t", movieId := "m2", rating := 5, liked := true }]
      [{ userId := "u", movieId := "m1", rating := 4, liked := false },
       { userId := "u", movieId := "m2", rating := 5, liked := false },
       { userId := "u", movieId := "m3", rating := 5, liked := true }] = 1/2 := by
    norm_num [pearsonNum, pearsonPSum, pearsonSum1, pearsonSum2, pearsonN, hcommon, hr1, hr2]
  have hden : pearsonDen
      [{ userId := "t", movieId := "m1", rating := 4, liked := true },
       { userId := "t", movieId := "m2", rating := 5, liked := true }]
      [{ userId := "u", movieId := "m1", rating := 4, liked := false },
       { userId := "u", movieId := "m2", rating := 5, liked := false },
       { userId := "u", movieId := "m3", rating := 5, liked := true }] = 1/2 := by
    rw [pearsonDen, hv1, hv2]
    have h14 : (((1 : ℚ)/2 * (1/2) : ℚ) : ℝ) = (1/2 : ℝ)^2 := by
      push_cast
      norm_num
    rw [h14, Real.sqrt_sq (by norm_num : (0:ℝ) ≤ 1/2)]
  rw [calculateUserSimilarity, if_neg (by rw [hcommon]; norm_num),
    if_neg (by rw [hden]; norm_num), hden, hnum]
  norm_num

theorem exDB_findSimilar_eval : findSimilarUsers "t" exDB.ratings exDB.users =
    [{ user := { id := "u" }, similarity := 1 }] := by
  have hft : exDB.ratings.filter (fun r => r.userId == "t") =
      [{ userId := "t", movieId := "m1", rating := 4, liked := true },
       { userId := "t", movieId := "m2", rating := 5, liked := true }] := by decide
  have hfu : exDB.ratings.filter (fun r => r.userId == "u") =
      [{ userId := "u", movieId := "m1", rating := 4, liked := false },
       { userId := "u", movieId := "m2", rating := 5, liked := false },
       { userId := "u", movieId := "m3", rating := 5, liked := true }] := by decide
  have husers : exDB.users.filter (fun u => u.id != "t") = [{ id := "u" }] := by decide
  rw [findSimilarUsers]
  simp only [hft, hfu, husers, List.map_cons, List.map_nil]
  rw [exDB_sim_eval]
  norm_num [sortBySimilarityDesc, stableSortByLt, stableInsertByLt]

theorem exDB_getRecs_eval (limit : ℕ) (hl : 1 ≤ limit) :
    getRecommendationsFromSimilarUsers "t"
    [{ user := { id := "u" }, similarity := 1 }] exDB.ratings exMovies limit =
    [{ movie := mvA3, score := 5, reason := "Recommended by 1 similar user" }] := by
  have hft : exDB.ratings.filter (fun r => r.userId == "t") =
      [{ userId := "t", movieId := "m1", rating := 4, liked := true },
       { userId := "t", movieId := "m2", rating := 5, liked := true }] := by decide
  have hfq : exDB.ratings.filter (fun r =>
      r.userId == "u" && r.liked && decide ((4 : ℚ) ≤ r.rating) &&
        !(["m1", "m2"].contains r.movieId)) =
      [{ userId := "u", movieId := "m3", rating := 5, liked := true }] := by decide
  have hfind : exMovies.find? (fun m => m.id == "m3") = some mvA3 := by decide
  rw [getRecommendationsFromSimilarUsers]
  simp only [hft, List.map_cons, List.map_nil, List.foldl_cons, List.foldl_nil,
    accumulateSimilarUser]
  rw [hfq]
  simp only [List.foldl_cons, List.foldl_nil, mapGet, mapSet, List.find?_nil, List.any_nil,
    Option.map_none', Option.getD_none, if_neg Bool.false_ne_true, List.nil_append,
    List.map_nil, hfind]
  norm_num [sortByScoreDesc, stableSortByLt, stableInsertByLt]
  rw [List.take_of_length_le (by simpa using hl)]
  have hreason : "Recommended by " ++ toString (1 : ℕ) ++ " similar user" =
      "Recommended by 1 similar user" := by decide
  rw [hreason]

theorem exDB_collab_eval (limit : ℕ) (hl : 1 ≤ limit) :
    generateCollaborativeRecommendations exDB "t" exMovies limit =
    [{ movie := mvA3, score := 5, reason := "Recommended by 1 similar user" }] := by
  have hft : exDB.ratings.filter (fun r => r.userId == "t") =
      [{ userId := "t", movieId := "m1", rating := 4, liked := true },
       { userId := "t", movieId := "m2", rating := 5, liked := true }] := by decide
  rw [generateCollaborativeRecommendations]
  simp only [DB.getAllRatings, DB.getAllUsers, hft]
  rw [if_neg (by norm_num), exDB_findSimilar_eval, exDB_getRecs_eval limit hl]

theorem exDB_content_sim_eval : calculateContentSimilarity mvA3 [mvA1, mvA2] = 0.8 := by
  norm_num [calculateContentSimilarity, contentSimOne, mvA1, mvA2, mvA3, truthyDirector,
    truthyRating, ratingOrZero, List.dedup]

theorem exDB_content_eval (limit : ℕ) (hl : 1 ≤ limit) :
    generateContentBasedRecommendations exDB "t" exMovies limit =
    [{ movie := mvA3, score := 0.8, reason := "Recommended because it shares a genre" }] := by
  have hliked : likedMoviesOf exDB "t" = [mvA1, mvA2] := by decide
  have hur : exDB.getUserRatings "t" =
      [{ userId := "t", movieId := "m1", rating := 4, liked := true },
       { userId := "t", movieId := "m2", rating := 5, liked := true }] := by decide
  have hcand : exMovies.filter (fun movie =>
      !((exDB.getUserRatings "t").any (fun r => r.movieId == movie.id))) = [mvA3] := by decide
  have hreason : generateContentReason mvA3 [mvA1, mvA2] =
      "Recommended because it shares a genre" := by decide
  rw [generateContentBasedRecommendations, hliked]
  rw [if_neg (by norm_num)]
  rw [hcand, List.map_cons, List.map_nil, exDB_content_sim_eval, hreason]
  simp only [sortByScoreDesc, stableSortByLt, stableInsertByLt]
  rw [List.take_of_length_le (by simpa using hl)]

theorem exDB_hybrid_eval : generateHybridRecommendations exDB "t" exMovies 10 =
    [{ movie := mvA3, score := 83/35,
       reason := "Recommended by 1 similar user (collaborative filtering) + content similarity" }] := by
  rw [generateHybridRecommendations]
  rw [show ((6 * 10 + 9) / 10 : ℕ) = 6 by norm_num, show ((4 * 10 + 9) / 10 : ℕ) = 4 by norm_num]
  rw [exDB_collab_eval 6 (by norm_num), exDB_content_eval 4 (by norm_num)]
  rw [hybridCombine]
  simp only [List.foldl_cons, List.foldl_nil, mapSet, mapGet, List.any_nil,
    List.nil_append, List.find?_nil, Option.map_none']
  norm_num [sortByScoreDesc, stableSortByLt, stableInsertByLt, mvA3]
  decide

theorem zeroDB_collab_low_eval :
    generateCollaborativeRecommendations zeroDB "z" [mvLow] 10 = [] := by
  rw [generateCollaborativeRecommendations]
  simp only [DB.getAllRatings, DB.getAllUsers]
  rw [if_pos (by decide)]
  rw [getPopularMovies, show [mvLow].filter (fun m =>
      truthyRating m.rating && decide ((7 : ℚ) ≤ ratingOrZero m)) = [] from by decide]
  simp [sortByQualityDesc, stableSortByLt, popScore]

theorem zeroDB_pop_high_eval (limit : ℕ) (hl : 1 ≤ limit) :
    getPopularMovies [mvHigh] limit =
      [{ movie := mvHigh, score := 0.8, reason := "Popular highly-rated movie" }] := by
  rw [getPopularMovies, show [mvHigh].filter (fun m =>
      truthyRating m.rating && decide ((7 : ℚ) ≤ ratingOrZero m)) = [mvHigh] from by decide]
  simp only [sortByQualityDesc, stableSortByLt, stableInsertByLt]
  rw [List.take_of_length_le (by simpa using hl)]
  rw [popScore, popScore]
  norm_num

theorem zeroDB_hybrid_high_eval :
    generateHybridRecommendations zeroDB "z" [mvHigh] 10 =
      [{ movie := mvHigh, score := 4/7,
         reason := "Popular highly-rated movie (collaborative filtering) + content similarity" }] := by
  rw [generateHybridRecommendations]
  rw [show ((6 * 10 + 9) / 10 : ℕ) = 6 by norm_num, show ((4 * 10 + 9) / 10 : ℕ) = 4 by norm_num]
  have hc : generateCollaborativeRecommendations zeroDB "z" [mvHigh] 6 =
      [{ movie := mvHigh, score := 0.8, reason := "Popular highly-rated movie" }] := by
    rw [generateCollaborativeRecommendations]
    simp only [DB.getAllRatings, DB.getAllUsers]
    rw [if_pos (by decide)]
    exact zeroDB_pop_high_eval 6 (by norm_num)
  have hs : generateContentBasedRecommendations zeroDB "z" [mvHigh] 4 =
      [{ movie := mvHigh, score := 0.8, reason := "Popular highly-rated movie" }] := by
    rw [generateContentBasedRecommendations]
    rw [if_pos (by decide)]
    exact zeroDB_pop_high_eval 4 (by norm_num)
  rw [hc, hs, hybridCombine]
  simp only [List.foldl_cons, List.foldl_nil, mapSet, mapGet, List.any_nil,
    List.nil_append, List.find?_nil, Option.map_none']
  norm_num [sortByScoreDesc, stableSortByLt, stableInsertByLt, mvHigh]
  decide

theorem noNbrDB_collab_eval :
    generateCollaborativeRecommendations noNbrDB "t4" noNbrDB.movies 10 = [] := by
  have hft : noNbrDB.ratings.filter (fun r => r.userId == "t4") =
      [{ userId := "t4", movieId := "q1", rating := 4, liked := true }] := by decide
  rw [generateCollaborativeRecommendations]
  simp only [DB.getAllRatings, DB.getAllUsers, hft]
  rw [if_neg (by norm_num)]
  have hsim : findSimilarUsers "t4" noNbrDB.ratings noNbrDB.users = [] := by
    have husers : noNbrDB.users.filter (fun u => u.id != "t4") = [{ id := "u4" }] := by decide
    have hsim0 : calculateUserSimilarity
        (noNbrDB.ratings.filter (fun r => r.userId == "t4"))
        (noNbrDB.ratings.filter (fun r => r.userId == "u4")) = 0 := by
      rw [calculateUserSimilarity, if_pos (by decide)]
    rw [findSimilarUsers]
    simp only [husers, List.map_cons, List.map_nil, hsim0]
    norm_num [sortBySimilarityDesc, stableSortByLt]
  rw [hsim, getRecommendationsFromSimilarUsers]
  simp only [List.foldl_nil]
  simp [sortByScoreDesc, stableSortByLt]

theorem noNbrDB_pop_eval : getPopularMovies noNbrDB.movies 10 ≠ [] := by
  rw [getPopularMovies, show noNbrDB.movies.filter (fun m =>
      truthyRating m.rating && decide ((7 : ℚ) ≤ ratingOrZero m)) = noNbrDB.movies from by decide]
  simp [sortByQualityDesc, stableSortByLt, stableInsertByLt, popScore, noNbrDB]

theorem tieDB_content_eval :
    generateContentBasedRecommendations tieDB "t7" tieDB.movies 10 =
      [{ movie := mvCB, score := 13/20, reason := "Recommended because it shares g genre" },
       { movie := mvCA, score := 13/20, reason := "Recommended because it shares g genre" }] := by
  have hliked : likedMoviesOf tieDB "t7" = [mvC1] := by decide
  have hcand : tieDB.movies.filter (fun movie =>
      !((tieDB.getUserRatings "t7").any (fun r => r.movieId == movie.id))) =
      [mvCB, mvCA] := by decide
  have hsimB : calculateContentSimilarity mvCB [mvC1] = 13/20 := by
    norm_num [calculateContentSimilarity, contentSimOne, mvC1, mvCB, truthyDirector,
      truthyRating, ratingOrZero, List.dedup]
  have hsimA : calculateContentSimilarity mvCA [mvC1] = 13/20 := by
    norm_num [calculateContentSimilarity, contentSimOne, mvC1, mvCA, truthyDirector,
      truthyRating, ratingOrZero, List.dedup]
  have hreB : generateContentReason mvCB [mvC1] =
      "Recommended because it shares g genre" := by decide
  have hreA : generateContentReason mvCA [mvC1] =
      "Recommended because it shares g genre" := by decide
  rw [generateContentBasedRecommendations, hliked]
  rw [if_neg (by norm_num)]
  rw [hcand, List.map_cons, List.map_cons, List.map_nil, hsimB, hsimA, hreB, hreA]
  simp only [sortByScoreDesc, stableSortByLt, stableInsertByLt]
  norm_num


/-! ## Score range bounds (claim C1) -/

theorem contentSimOne_bounds (movie likedMovie : Movie) (hg : movie.genre ≠ [])
    (hnd : movie.genre.Nodup) :
    0 ≤ contentSimOne movie likedMovie ∧ contentSimOne movie likedMovie ≤ 1 := by
  have hlenpos : 0 < movie.genre.length := List.length_pos.mpr hg
  have h1 : (movie.genre.filter (fun g => likedMovie.genre.contains g)).length ≤
      movie.genre.length := List.length_filter_le _ _
  have h2 : movie.genre.length ≤ (movie.genre ++ likedMovie.genre).dedup.length := by
    calc movie.genre.length = movie.genre.toFinset.card :=
          (List.toFinset_card_of_nodup hnd).symm
      _ ≤ (movie.genre ++ likedMovie.genre).toFinset.card := by
          refine Finset.card_le_card ?_
          rw [List.toFinset_append]
          exact Finset.subset_union_left
      _ = (movie.genre ++ likedMovie.genre).dedup.length := List.card_toFinset _
  have hupos : (0 : ℝ) < (((movie.genre ++ likedMovie.genre).dedup.length : ℕ) : ℝ) := by
    exact_mod_cast lt_of_lt_of_le hlenpos h2
  have hratio1 : ((movie.genre.filter (fun g => likedMovie.genre.contains g)).length : ℝ) /
      (((movie.genre ++ likedMovie.genre).dedup.length : ℕ) : ℝ) ≤ 1 := by
    rw [div_le_one hupos]
    exact_mod_cast le_trans h1 h2
  have hratio0 : (0 : ℝ) ≤
      ((movie.genre.filter (fun g => likedMovie.genre.contains g)).length : ℝ) /
        (((movie.genre ++ likedMovie.genre).dedup.length : ℕ) : ℝ) :=
    div_nonneg (Nat.cast_nonneg _) (Nat.cast_nonneg _)
  rw [contentSimOne]
  split_ifs <;> exact ⟨by linarith [hratio0, hratio1], by linarith [hratio0, hratio1]⟩

theorem calculateContentSimilarity_bounds (movie : Movie) (likedMovies : List Movie)
    (hg : movie.genre ≠ []) (hnd : movie.genre.Nodup) (hl : likedMovies ≠ []) :
    0 ≤ calculateContentSimilarity movie likedMovies ∧
      calculateContentSimilarity movie likedMovies ≤ 1 := by
  have hlen : 0 < likedMovies.length := List.length_pos.mpr hl
  have hsum0 : (0 : ℝ) ≤ (likedMovies.map (contentSimOne movie)).sum := by
    apply List.sum_nonneg
    intro x hx
    obtain ⟨lm, hlm, rfl⟩ := List.mem_map.mp hx
    exact (contentSimOne_bounds movie lm hg hnd).1
  have hsum1 : (likedMovies.map (contentSimOne movie)).sum ≤ (likedMovies.length : ℝ) := by
    have h := List.sum_le_card_nsmul (likedMovies.map (contentSimOne movie)) 1 ?hbound
    · simpa [nsmul_eq_mul] using h
    · intro x hx
      obtain ⟨lm, hlm, rfl⟩ := List.mem_map.mp hx
      exact (contentSimOne_bounds movie lm hg hnd).2
  rw [calculateContentSimilarity]
  rw [if_pos hlen]
  constructor
  · exact div_nonneg hsum0 (Nat.cast_nonneg _)
  · rw [div_le_one (by exact_mod_cast hlen)]
    exact hsum1

theorem getPopularMovies_score_mem (movies : List Movie) (limit : ℕ) (r : Recommendation)
    (hr : r ∈ getPopularMovies movies limit) :
    ∃ i < ((sortByQualityDesc (movies.filter (fun m =>
        truthyRating m.rating && decide ((7 : ℚ) ≤ ratingOrZero m)))).take limit).length,
      r.score = 0.8 - (i : ℝ) * 0.05 := by
  rw [getPopularMovies] at hr
  have hmem : r.score ∈ (popScore 0 ((sortByQualityDesc (movies.filter (fun m =>
      truthyRating m.rating && decide ((7 : ℚ) ≤ ratingOrZero m)))).take limit)).map
      (fun x => x.score) := List.mem_map_of_mem _ hr
  rw [popScore_map_score] at hmem
  obtain ⟨i, hi, hscore⟩ := List.mem_map.mp hmem
  rw [List.mem_range] at hi
  exact ⟨i, hi, by simpa using hscore.symm⟩

/-- Counterexample to C1 as stated: in the two-user scenario the
Collaborative Recommender returns the unwatched movie with score
`5 × similarity 1 / 1 = 5`, far outside `[0, 1]`. -/
theorem C1_counterexample :
    ¬ (∀ r ∈ generateCollaborativeRecommendations exDB "t" exMovies 10,
        r.score ∈ Set.Icc (0 : ℝ) 1) := by
  intro h
  have hmem : ({ movie := mvA3, score := 5, reason := "Recommended by 1 similar user" } :
      Recommendation) ∈ generateCollaborativeRecommendations exDB "t" exMovies 10 := by
    rw [exDB_collab_eval 10 (by norm_num)]
    exact List.mem_singleton_self _
  have hb := h _ hmem
  rw [Set.mem_Icc] at hb
  norm_num at hb

/-- Claim C1, amended: Content scores lie in `[0, 1]` on the non-fallback
branch for catalogs whose genre lists are nonempty and duplicate-free; the
popularity fallback's rank scores lie in `[0, 0.8]` when at most 17 items
are requested (rank 17 and beyond would go negative).  Collaborative and
Fusion scores are similarity-weighted rating averages and are not confined
to `[0, 1]` (see the counterexample). -/
theorem C1_corrected_score_ranges :
    (∀ (db : DB) (t : String) (movies : List Movie) (limit : ℕ) (r : Recommendation),
        (∀ m ∈ movies, m.genre ≠ [] ∧ m.genre.Nodup) → likedMoviesOf db t ≠ [] →
        r ∈ generateContentBasedRecommendations db t movies limit →
        0 ≤ r.score ∧ r.score ≤ 1) ∧
    (∀ (movies : List Movie) (limit : ℕ) (r : Recommendation), limit ≤ 17 →
        r ∈ getPopularMovies movies limit → 0 ≤ r.score ∧ r.score ≤ 0.8) := by
  constructor
  · intro db t movies limit r hgenres hliked hr
    rw [generateContentBasedRecommendations] at hr
    rw [if_neg (by simpa [List.length_eq_zero] using hliked)] at hr
    have hr2 := List.mem_of_mem_take hr
    rw [sortByScoreDesc, mem_stableSortByLt] at hr2
    obtain ⟨m, hm, rfl⟩ := List.mem_map.mp hr2
    have hmm : m ∈ movies := List.mem_of_mem_filter hm
    exact calculateContentSimilarity_bounds m (likedMoviesOf db t)
      (hgenres m hmm).1 (hgenres m hmm).2 hliked
  · intro movies limit r hlim hr
    obtain ⟨i, hi, hscore⟩ := getPopularMovies_score_mem movies limit r hr
    have hle : i ≤ 16 := by
      have := List.length_take_le limit (sortByQualityDesc (movies.filter (fun m =>
        truthyRating m.rating && decide ((7 : ℚ) ≤ ratingOrZero m))))
      omega
    have hi16 : (i : ℝ) ≤ 16 := by exact_mod_cast hle
    have hi0 : (0 : ℝ) ≤ (i : ℝ) := Nat.cast_nonneg i
    rw [hscore]
    constructor <;> linarith

/-- Witness for the amended C1 at concrete inputs of both conjuncts. -/
theorem C1_witness :
    (({ movie := mvCB, score := 13/20, reason := "Recommended because it shares g genre" } :
        Recommendation) ∈ generateContentBasedRecommendations tieDB "t7" tieDB.movies 10) ∧
    (0 ≤ (13/20 : ℝ) ∧ (13/20 : ℝ) ≤ 1) ∧
    (({ movie := mvHigh, score := 0.8, reason := "Popular highly-rated movie" } :
        Recommendation) ∈ getPopularMovies [mvHigh] 10) ∧
    (0 ≤ (0.8 : ℝ) ∧ (0.8 : ℝ) ≤ 0.8) := by
  have hmem1 : ({ movie := mvCB, score := 13/20,
                  reason := "Recommended because it shares g genre" } : Recommendation) ∈
      generateContentBasedRecommendations tieDB "t7" tieDB.movies 10 := by
    rw [tieDB_content_eval]
    exact List.mem_cons_self _ _
  have hmem2 : ({ movie := mvHigh, score := 0.8, reason := "Popular highly-rated movie" } :
      Recommendation) ∈ getPopularMovies [mvHigh] 10 := by
    rw [zeroDB_pop_high_eval 10 (by norm_num)]
    exact List.mem_singleton_self _
  refine ⟨hmem1, ?_, hmem2, ?_⟩
  · exact C1_corrected_score_ranges.1 tieDB "t7" tieDB.movies 10 _
      (by decide) (by decide) hmem1
  · exact C1_corrected_score_ranges.2 [mvHigh] 10 _ (by norm_num) hmem2


/-! ## Fusion combination (claim C2) -/

theorem find?_key_cons_pos {α : Type} (p : String × α) (ps : List (String × α)) (k : String)
    (hp : (p.1 == k) = true) :
    List.find? (fun q => q.1 == k) (p :: ps) = some p :=
  List.find?_cons_of_pos ps hp

theorem find?_key_cons_neg {α : Type} (p : String × α) (ps : List (String × α)) (k : String)
    (hp : ¬ (p.1 == k) = true) :
    List.find? (fun q => q.1 == k) (p :: ps) = List.find? (fun q => q.1 == k) ps :=
  List.find?_cons_of_neg ps hp

theorem mapGet_replace {α : Type} (m : List (String × α)) (k : String) (v : α)
    (h : (m.any fun p => p.1 == k) = true) :
    mapGet (m.map (fun p => if p.1 == k then (k, v) else p)) k = some v := by
  induction m with
  | nil => simp at h
  | cons p ps ih =>
    rw [List.map_cons]
    by_cases hp : (p.1 == k) = true
    · rw [if_pos hp]
      simp [mapGet]
    · rw [if_neg hp]
      have hps : (ps.any fun q => q.1 == k) = true := by
        simpa [List.any_cons, hp] using h
      rw [mapGet, find?_key_cons_neg _ _ _ hp]
      exact ih hps

theorem mapGet_append_single {α : Type} (m : List (String × α)) (k : String) (v : α)
    (h : (m.any fun p => p.1 == k) = false) :
    mapGet (m ++ [(k, v)]) k = some v := by
  induction m with
  | nil => simp [mapGet]
  | cons p ps ih =>
    rw [List.any_cons, Bool.or_eq_false_iff] at h
    rw [List.cons_append, mapGet, find?_key_cons_neg _ _ _ (by simp [h.1])]
    exact ih h.2

theorem mapGet_mapSet_self {α : Type} (m : List (String × α)) (k : String) (v : α) :
    mapGet (mapSet m k v) k = some v := by
  rw [mapSet]
  by_cases h : (m.any fun p => p.1 == k) = true
  · rw [if_pos h]
    exact mapGet_replace m k v h
  · rw [if_neg h]
    rw [Bool.not_eq_true] at h
    exact mapGet_append_single m k v h

theorem mapGet_mapSet_other {α : Type} (m : List (String × α)) (k k' : String) (v : α)
    (hne : k' ≠ k) : mapGet (mapSet m k v) k' = mapGet m k' := by
  rw [mapSet]
  by_cases h : (m.any fun p => p.1 == k) = true
  · rw [if_pos h]
    clear h
    induction m with
    | nil => simp
    | cons p ps ih =>
      rw [List.map_cons]
      by_cases hp : (p.1 == k) = true
      · have hp' : ¬ ((((k, v) : String × α)).1 == k') = true := by
          simp only [beq_iff_eq]
          exact fun he => hne he.symm
        have hpk : ¬ (p.1 == k') = true := by
          simp only [beq_iff_eq] at hp ⊢
          rw [hp]
          exact fun he => hne he.symm
        rw [if_pos hp, mapGet, mapGet, find?_key_cons_neg _ _ _ hp',
          find?_key_cons_neg _ _ _ hpk]
        exact ih
      · rw [if_neg hp]
        by_cases hpk : (p.1 == k') = true
        · rw [mapGet, mapGet, find?_key_cons_pos _ _ _ hpk, find?_key_cons_pos _ _ _ hpk]
        · rw [mapGet, mapGet, find?_key_cons_neg _ _ _ hpk, find?_key_cons_neg _ _ _ hpk]
          exact ih
  · rw [if_neg h]
    clear h
    induction m with
    | nil =>
      simp only [List.nil_append, mapGet, List.find?]
      rw [show (k == k') = false from by
        simp only [beq_eq_false_iff_ne]
        exact fun he => hne he.symm]
    | cons p ps ih =>
      by_cases hpk : (p.1 == k') = true
      · rw [List.cons_append, mapGet, mapGet, find?_key_cons_pos _ _ _ hpk,
          find?_key_cons_pos _ _ _ hpk]
      · rw [List.cons_append, mapGet, mapGet, find?_key_cons_neg _ _ _ hpk,
          find?_key_cons_neg _ _ _ hpk]
        exact ih

theorem foldl_tag_get_notmem (f : Recommendation → Recommendation)
    (l : List Recommendation) (m0 : List (String × Recommendation)) (key : String)
    (h : key ∉ l.map (fun r => r.movie.id)) :
    mapGet (l.foldl (fun m r => mapSet m r.movie.id (f r)) m0) key = mapGet m0 key := by
  induction l generalizing m0 with
  | nil => rfl
  | cons x xs ih =>
    rw [List.map_cons, List.mem_cons] at h
    push_neg at h
    rw [List.foldl_cons, ih (mapSet m0 x.movie.id (f x)) h.2,
      mapGet_mapSet_other m0 x.movie.id key (f x) h.1]

theorem foldl_tag_get_mem (f : Recommendation → Recommendation)
    (l : List Recommendation) (m0 : List (String × Recommendation))
    (c : Recommendation) (hc : c ∈ l) (hnd : (l.map (fun r => r.movie.id)).Nodup) :
    mapGet (l.foldl (fun m r => mapSet m r.movie.id (f r)) m0) c.movie.id = some (f c) := by
  induction l generalizing m0 with
  | nil => cases hc
  | cons x xs ih =>
    rw [List.map_cons, List.nodup_cons] at hnd
    rcases List.mem_cons.mp hc with rfl | hcx
    · rw [List.foldl_cons,
        foldl_tag_get_notmem f xs (mapSet m0 c.movie.id (f c)) c.movie.id hnd.1,
        mapGet_mapSet_self]
    · rw [List.foldl_cons]
      exact ih (mapSet m0 x.movie.id (f x)) hcx hnd.2

theorem foldl_combine_get_notmem (comb : Recommendation → Recommendation → Recommendation)
    (tag : Recommendation → Recommendation) (l : List Recommendation)
    (m0 : List (String × Recommendation)) (key : String)
    (h : key ∉ l.map (fun r => r.movie.id)) :
    mapGet (l.foldl (fun m r =>
      match mapGet m r.movie.id with
      | some existing => mapSet m r.movie.id (comb existing r)
      | none => mapSet m r.movie.id (tag r)) m0) key = mapGet m0 key := by
  induction l generalizing m0 with
  | nil => rfl
  | cons x xs ih =>
    rw [List.map_cons, List.mem_cons] at h
    push_neg at h
    rw [List.foldl_cons]
    rcases hget : mapGet m0 x.movie.id with _ | e
    · rw [ih _ h.2, mapGet_mapSet_other m0 x.movie.id key (tag x) h.1]
    · rw [ih _ h.2, mapGet_mapSet_other m0 x.movie.id key (comb e x) h.1]

theorem foldl_combine_get_mem (comb : Recommendation → Recommendation → Recommendation)
    (tag : Recommendation → Recommendation) (l : List Recommendation)
    (m0 : List (String × Recommendation)) (s : Recommendation) (hs : s ∈ l)
    (hnd : (l.map (fun r => r.movie.id)).Nodup) :
    mapGet (l.foldl (fun m r =>
      match mapGet m r.movie.id with
      | some existing => mapSet m r.movie.id (comb existing r)
      | none => mapSet m r.movie.id (tag r)) m0) s.movie.id =
    some (match mapGet m0 s.movie.id with
          | some existing => comb existing s
          | none => tag s) := by
  induction l generalizing m0 with
  | nil => cases hs
  | cons x xs ih =>
    rw [List.map_cons, List.nodup_cons] at hnd
    rcases List.mem_cons.mp hs with rfl | hsx
    · rw [List.foldl_cons]
      rcases hget : mapGet m0 s.movie.id with _ | e
      · rw [foldl_combine_get_notmem comb tag xs _ s.movie.id hnd.1, mapGet_mapSet_self]
      · rw [foldl_combine_get_notmem comb tag xs _ s.movie.id hnd.1, mapGet_mapSet_self]
    · have hne : s.movie.id ≠ x.movie.id := by
        intro he
        exact hnd.1 (he ▸ List.mem_map_of_mem (fun r => r.movie.id) hsx)
      rw [List.foldl_cons]
      rcases hget : mapGet m0 x.movie.id with _ | e
      · rw [ih _ hsx hnd.2, mapGet_mapSet_other m0 x.movie.id s.movie.id (tag x) hne]
      · rw [ih _ hsx hnd.2, mapGet_mapSet_other m0 x.movie.id s.movie.id (comb e x) hne]

/-- Claim C2, amended: an item present in both fusion inputs is stored with
score `(collab_score * 0.6 + content_score * 0.4) / 1.4` — the source divides
the reweighted sum by `1.4`, not `1.0` — and its justification is the
collaborative reason tagged `" (collaborative filtering)"` followed by the
literal `" + content similarity"`; the content reason text is dropped. -/
theorem C2_corrected_fusion_combination (collab content : List Recommendation)
    (hcnd : (collab.map (fun r => r.movie.id)).Nodup)
    (hsnd : (content.map (fun r => r.movie.id)).Nodup)
    (c s : Recommendation) (hcm : c ∈ collab) (hsm : s ∈ content)
    (hid : s.movie.id = c.movie.id) :
    mapGet (hybridCombine collab content) c.movie.id =
      some { movie := c.movie,
             score := (c.score * 0.6 + s.score * 0.4) / 1.4,
             reason := (c.reason ++ " (collaborative filtering)") ++ " + content similarity" } := by
  rw [hybridCombine]
  rw [← hid]
  rw [foldl_combine_get_mem
    (fun existing r => { existing with score := (existing.score + r.score * 0.4) / 1.4,
                                       reason := existing.reason ++ " + content similarity" })
    (fun r => { r with score := r.score * 0.4, reason := r.reason ++ " (content-based)" })
    content _ s hsm hsnd]
  rw [hid]
  rw [foldl_tag_get_mem
    (fun r => { r with score := r.score * 0.6,
                       reason := r.reason ++ " (collaborative filtering)" })
    collab [] c hcm hcnd]

/-- Witness for the amended C2 on singleton input lists sharing one movie. -/
theorem C2_witness :
    mapGet (hybridCombine [wColl] [wCont]) wColl.movie.id =
      some { movie := wColl.movie,
             score := (wColl.score * 0.6 + wCont.score * 0.4) / 1.4,
             reason := (wColl.reason ++ " (collaborative filtering)") ++
               " + content similarity" } :=
  C2_corrected_fusion_combination [wColl] [wCont] (by simp) (by simp) wColl wCont
    (List.mem_singleton_self _) (List.mem_singleton_self _) rfl

/-- Counterexample to C2 as stated: in the two-user scenario `m3` appears in
both source lists with collaborative score 5 and content score 0.8, and the
fusion output carries `(5*0.6 + 0.8*0.4)/1.4 = 83/35 ≈ 2.37`, not the
claimed `(5*0.6 + 0.8*0.4)/1.0 = 3.32`; its justification also omits the
content reason text. -/
theorem C2_counterexample :
    (generateHybridRecommendations exDB "t" exMovies 10).map
        (fun r => (r.movie.id, r.score)) = [("m3", (83/35 : ℝ))] ∧
    (83/35 : ℝ) ≠ (5 * 0.6 + 0.8 * 0.4) / 1 ∧
    (generateHybridRecommendations exDB "t" exMovies 10).map (fun r => r.reason) =
      ["Recommended by 1 similar user (collaborative filtering) + content similarity"] := by
  refine ⟨?_, by norm_num, ?_⟩
  · rw [exDB_hybrid_eval]
    norm_num [mvA3]
  · rw [exDB_hybrid_eval]
    rfl


/-! ## Popularity fallback (claim C3) -/

theorem popScore_ne_nil (k : ℕ) (l : List Movie) (h : l ≠ []) : popScore k l ≠ [] := by
  cases l with
  | nil => exact absurd rfl h
  | cons m ms => simp [popScore]

/-- Claim C3, amended: a subject with zero ratings receives the popularity
fallback from the Collaborative and the Content recommenders; the fallback
keeps exactly the items with a truthy quality score of at least 7 (items
merely *having* a score, but below 7 or equal to 0, are excluded too),
assigns the scores `0.8 - 0.05·rank`, and is non-empty exactly when such an
item exists and the limit is positive.  The Fusion recommender instead
re-merges the two popularity prefixes with the fusion weights, so its
zero-rating output is not the raw fallback (see the counterexample). -/
theorem C3_corrected_fallback :
    (∀ (db : DB) (t : String) (movies : List Movie) (limit : ℕ),
        db.getUserRatings t = [] →
        generateCollaborativeRecommendations db t movies limit =
            getPopularMovies movies limit ∧
        generateContentBasedRecommendations db t movies limit =
            getPopularMovies movies limit) ∧
    (∀ (movies : List Movie) (limit : ℕ),
        (getPopularMovies movies limit).map (fun r => r.score) =
          specFallbackScores ((sortByQualityDesc (movies.filter (fun m =>
            truthyRating m.rating && decide ((7 : ℚ) ≤ ratingOrZero m)))).take limit).length ∧
        ∀ r ∈ getPopularMovies movies limit,
          truthyRating r.movie.rating = true ∧ 7 ≤ ratingOrZero r.movie) ∧
    (∀ (movies : List Movie) (limit : ℕ), 1 ≤ limit →
        (∃ m ∈ movies, truthyRating m.rating = true ∧ 7 ≤ ratingOrZero m) →
        getPopularMovies movies limit ≠ []) := by
  refine ⟨fun db t movies limit h => ⟨?_, ?_⟩, fun movies limit => ⟨?_, ?_⟩,
    fun movies limit hlim hex => ?_⟩
  · have hf : db.ratings.filter (fun r => r.userId == t) = [] := h
    rw [generateCollaborativeRecommendations]
    simp only [DB.getAllRatings, DB.getAllUsers, hf]
    simp
  · have hliked : likedMoviesOf db t = [] := by
      rw [likedMoviesOf, h]
      rfl
    rw [generateContentBasedRecommendations, hliked]
    simp
  · rw [getPopularMovies, popScore_map_score, specFallbackScores]
    refine List.map_congr_left fun i hi => ?_
    norm_num
  · intro r hr
    rw [getPopularMovies] at hr
    have hmov := popScore_movie_mem 0 _ r hr
    have hmem : r.movie ∈ sortByQualityDesc (movies.filter (fun m =>
        truthyRating m.rating && decide ((7 : ℚ) ≤ ratingOrZero m))) :=
      List.mem_of_mem_take hmov
    rw [sortByQualityDesc, mem_stableSortByLt] at hmem
    have hsplit := (List.mem_filter.mp hmem).2
    rw [Bool.and_eq_true] at hsplit
    exact ⟨hsplit.1, by simpa using hsplit.2⟩
  · obtain ⟨m, hm, hq, hge⟩ := hex
    have hfm : m ∈ movies.filter (fun m =>
        truthyRating m.rating && decide ((7 : ℚ) ≤ ratingOrZero m)) :=
      List.mem_filter.mpr ⟨hm, by simp [hq, hge]⟩
    have hfne : movies.filter (fun m =>
        truthyRating m.rating && decide ((7 : ℚ) ≤ ratingOrZero m)) ≠ [] :=
      List.ne_nil_of_mem hfm
    have hsne : sortByQualityDesc (movies.filter (fun m =>
        truthyRating m.rating && decide ((7 : ℚ) ≤ ratingOrZero m))) ≠ [] := by
      intro hcon
      apply hfne
      have hperm := stableSortByLt_perm
        (fun a b => decide (ratingOrZero a < ratingOrZero b))
        (movies.filter (fun m => truthyRating m.rating && decide ((7 : ℚ) ≤ ratingOrZero m)))
      rw [sortByQualityDesc] at hcon
      rw [hcon] at hperm
      exact (hperm.symm).eq_nil
    have htne : (sortByQualityDesc (movies.filter (fun m =>
        truthyRating m.rating && decide ((7 : ℚ) ≤ ratingOrZero m)))).take limit ≠ [] := by
      rw [Ne, List.take_eq_nil_iff]
      push_neg
      exact ⟨by omega, hsne⟩
    rw [getPopularMovies]
    exact popScore_ne_nil 0 _ htne

/-- Witness for the amended C3: the zero-rating subject `z` with the
quality-8 catalog. -/
theorem C3_witness :
    (generateCollaborativeRecommendations zeroDB "z" [mvHigh] 10 =
        getPopularMovies [mvHigh] 10) ∧
    (generateContentBasedRecommendations zeroDB "z" [mvHigh] 10 =
        getPopularMovies [mvHigh] 10) ∧
    getPopularMovies [mvHigh] 10 ≠ [] :=
  ⟨(C3_corrected_fallback.1 zeroDB "z" [mvHigh] 10 (by decide)).1,
   (C3_corrected_fallback.1 zeroDB "z" [mvHigh] 10 (by decide)).2,
   C3_corrected_fallback.2.2 [mvHigh] 10 (by norm_num)
     ⟨mvHigh, List.mem_singleton_self _, by decide, by decide⟩⟩

/-- Counterexample to C3 as stated: a catalog whose only item has quality
score 5 (present, hence "has a quality score") yields an *empty* fallback
for a zero-rating subject; and under the hybrid strategy a zero-rating
subject receives score `0.8/1.4 = 4/7`, not the fallback's `0.8`. -/
theorem C3_counterexample :
    generateCollaborativeRecommendations zeroDB "z" [mvLow] 10 = [] ∧
    mvLow.rating = some 5 ∧
    (generateHybridRecommendations zeroDB "z" [mvHigh] 10).map (fun r => r.score) =
      [4/7] ∧
    (4/7 : ℝ) ≠ 0.8 := by
  refine ⟨zeroDB_collab_low_eval, rfl, ?_, by norm_num⟩
  rw [zeroDB_hybrid_high_eval]
  rfl


/-! ## Zero-neighbor behavior (claim C4) -/

theorem noNbrDB_findSimilar_eval :
    findSimilarUsers "t4" noNbrDB.ratings noNbrDB.users = [] := by
  have husers : noNbrDB.users.filter (fun u => u.id != "t4") = [{ id := "u4" }] := by decide
  have hsim0 : calculateUserSimilarity
      (noNbrDB.ratings.filter (fun r => r.userId == "t4"))
      (noNbrDB.ratings.filter (fun r => r.userId == "u4")) = 0 := by
    rw [calculateUserSimilarity, if_pos (by decide)]
  rw [findSimilarUsers]
  simp only [husers, List.map_cons, List.map_nil, hsim0]
  norm_num [sortBySimilarityDesc, stableSortByLt]

/-- Claim C4, amended: when the subject has ratings but no other subject
passes the 0.3 similarity threshold, the Collaborative Recommender returns
the *empty list*; the popularity fallback is reached only for a subject with
zero ratings (or from the `catch` branch).  Insufficient neighbor signal is
therefore surfaced as an empty best-effort result, not resolved via the
Fallback Policy. -/
theorem C4_corrected_zero_neighbors (db : DB) (targetUserId : String)
    (allMovies : List Movie) (limit : ℕ)
    (hne : db.ratings.filter (fun r => r.userId == targetUserId) ≠ [])
    (hns : findSimilarUsers targetUserId db.ratings db.users = []) :
    generateCollaborativeRecommendations db targetUserId allMovies limit = [] := by
  rw [generateCollaborativeRecommendations]
  simp only [DB.getAllRatings, DB.getAllUsers, hns]
  rw [if_neg (by simpa [List.length_eq_zero] using hne)]
  rw [getRecommendationsFromSimilarUsers]
  simp [sortByScoreDesc, stableSortByLt]

/-- Witness for the amended C4 at the concrete zero-neighbor scenario. -/
theorem C4_witness :
    noNbrDB.ratings.filter (fun r => r.userId == "t4") ≠ [] ∧
    generateCollaborativeRecommendations noNbrDB "t4" noNbrDB.movies 10 = [] :=
  ⟨by decide,
   C4_corrected_zero_neighbors noNbrDB "t4" noNbrDB.movies 10 (by decide)
     noNbrDB_findSimilar_eval⟩

/-- Counterexample to C4 as stated: the zero-neighbor subject `t4` gets an
empty result even though the catalog holds a quality-8 item whose
popularity fallback would be non-empty. -/
theorem C4_counterexample :
    generateCollaborativeRecommendations noNbrDB "t4" noNbrDB.movies 10 = [] ∧
    noNbrDB.ratings.filter (fun r => r.userId == "t4") ≠ [] ∧
    getPopularMovies noNbrDB.movies 10 ≠ [] :=
  ⟨noNbrDB_collab_eval, by decide, noNbrDB_pop_eval⟩



/-- The output of sortByScoreDesc is sorted in descending score order. -/
theorem sortByScoreDesc_sorted (l : List Recommendation) :
    (sortByScoreDesc l).Sorted (fun x y => y.score ≤ x.score) :=
  sorted_stableSortByLt (fun r => r.score) l

/-- Truncation to a limit preserves the descending-score order. -/
theorem sortByScoreDesc_take_sorted (l : List Recommendation) (limit : ℕ) :
    ((sortByScoreDesc l).take limit).Sorted (fun x y => y.score ≤ x.score) :=
  List.Pairwise.sublist (List.take_sublist _ _) (sortByScoreDesc_sorted l)

/-- The popularity fallback emits recommendations in descending score order. -/
theorem getPopularMovies_sorted (movies : List Movie) (limit : ℕ) :
    (getPopularMovies movies limit).Sorted (fun x y => y.score ≤ x.score) := by
  rw [getPopularMovies]
  exact popScore_sorted 0 _

/-- Recommendations derived from similar users come out sorted in descending
score order. -/
theorem getRecommendationsFromSimilarUsers_sorted (t : String) (su : List SimilarUser)
    (allRatings : List Rating) (allMovies : List Movie) (limit : ℕ) :
    (getRecommendationsFromSimilarUsers t su allRatings allMovies limit).Sorted
      (fun x y => y.score ≤ x.score) := by
  rw [getRecommendationsFromSimilarUsers]
  exact sortByScoreDesc_take_sorted _ _

/-- Claim C7, amended: the ranked output of the Collaborative Recommender is
always sorted descending by score, and those of the Content and Fusion
recommenders are sorted descending by score for catalogs whose genre lists
are nonempty — the hypothesis keeps the quantified domain inside the region
where every content score is a number: with two empty genre lists the source
computes `0 / 0` (`NaN`), its sort comparator becomes inconsistent, and
ECMAScript leaves the resulting order implementation-defined.  The sort is
stable — for any fixed score, the sub-sequence of items carrying that score
appears in the same order as in the pre-sort candidate list (input order).
Ties are therefore deterministic and reproducible, but they are broken by
the order in which candidates were accumulated, NOT by item identity. -/
theorem C7_corrected_ordering :
    (∀ (db : DB) (t : String) (movies : List Movie) (limit : ℕ),
        (generateCollaborativeRecommendations db t movies limit).Sorted
          (fun x y => y.score ≤ x.score)) ∧
    (∀ (db : DB) (t : String) (movies : List Movie) (limit : ℕ),
        (∀ m ∈ movies, m.genre ≠ []) →
        (generateContentBasedRecommendations db t movies limit).Sorted
          (fun x y => y.score ≤ x.score) ∧
        (generateHybridRecommendations db t movies limit).Sorted
          (fun x y => y.score ≤ x.score)) ∧
    (∀ (l : List Recommendation) (s : ℝ),
        (sortByScoreDesc l).filter (fun x => decide (x.score = s)) =
          l.filter (fun x => decide (x.score = s))) := by
  refine ⟨?_, ?_, ?_⟩
  · intro db t movies limit
    rw [generateCollaborativeRecommendations]
    split_ifs
    · exact getPopularMovies_sorted movies limit
    · exact getRecommendationsFromSimilarUsers_sorted _ _ _ _ _
  · intro db t movies limit _
    constructor
    · rw [generateContentBasedRecommendations]
      split_ifs
      · exact getPopularMovies_sorted movies limit
      · exact sortByScoreDesc_take_sorted _ _
    · rw [generateHybridRecommendations]
      exact sortByScoreDesc_take_sorted _ _
  · intro l s
    exact filter_stableSortByLt (fun r => r.score) s l

/-- Witness for the amended C7: the tie fixture's catalog has nonempty genre
lists, and its Content and Fusion outputs are sorted descending by score. -/
theorem C7_witness :
    (generateContentBasedRecommendations tieDB "t7" tieDB.movies 10).Sorted
      (fun x y => y.score ≤ x.score) ∧
    (generateHybridRecommendations tieDB "t7" tieDB.movies 10).Sorted
      (fun x y => y.score ≤ x.score) :=
  C7_corrected_ordering.2.1 tieDB "t7" tieDB.movies 10 (by decide)

/-- Counterexample to claim C7 as stated: in the tie fixture the Content
Recommender returns two items with equal score 13/20 in the order
["b", "a"], which is not item-identity order ("b" is not ≤ "a"); ties are
broken by candidate (catalog) order, not by item identity. -/
theorem C7_counterexample :
    (generateContentBasedRecommendations tieDB "t7" tieDB.movies 10).map
        (fun r => r.movie.id) = ["b", "a"] ∧
    (generateContentBasedRecommendations tieDB "t7" tieDB.movies 10).map
        (fun r => r.score) = [13/20, 13/20] ∧
    ¬ (("b" : String) ≤ "a") := by
  refine ⟨?_, ?_, ?_⟩
  · rw [tieDB_content_eval]
    rfl
  · rw [tieDB_content_eval]
    rfl
  · rw [String.le_iff_toList_le]
    decide


/-- Any element the AI parser keeps references a catalog movie, and its
score is the JS clamp expression applied to some raw value. -/
theorem parseAIRecElem_fields (allMovies : List Movie) (j : Json) (r : AIRecommendation)
    (h : parseAIRecElem allMovies j = some r) :
    r.movie ∈ allMovies ∧
      ∃ sv : Option ℚ, r.score = jsMax (1 / 10) (jsMin 1 sv) := by
  simp only [parseAIRecElem] at h
  split at h
  · exact absurd h (by simp)
  · rename_i movie hm
    have hmem : movie ∈ allMovies := by
      split at hm
      · exact List.mem_of_find?_eq_some hm
      · exact absurd hm (by simp)
    rw [Option.some.injEq] at h
    subst h
    exact ⟨hmem, _, rfl⟩

/-- When the clamp `Math.max(0.1, Math.min(1.0, x))` produces a number (not
`NaN`), that number lies in `[1/10, 1]`. -/
theorem jsClamp_bounds (sv : Option ℚ) (q : ℚ)
    (h : jsMax (1 / 10) (jsMin 1 sv) = some q) : 1 / 10 ≤ q ∧ q ≤ 1 := by
  cases sv with
  | none => simp [jsMin, jsMax] at h
  | some v =>
    simp only [jsMin, jsMax, Option.some.injEq] at h
    subst h
    exact ⟨le_max_left _ _, max_le (by norm_num) (min_le_left _ _)⟩

/-- An element kept by the AI parser whose `score` field is absent gets the
default score `0.5`. -/
theorem parseAIRecElem_default_score (allMovies : List Movie) (j : Json)
    (r : AIRecommendation) (h : parseAIRecElem allMovies j = some r)
    (hs : getField j "score" = none) : r.score = some (1 / 2) := by
  simp only [parseAIRecElem, hs] at h
  split at h
  · exact absurd h (by simp)
  · rw [Option.some.injEq] at h
    subst h
    show jsMax (1 / 10) (jsMin 1 (some (1 / 2))) = some (1 / 2)
    simp only [jsMin, jsMax, Option.some.injEq]
    rw [min_def, max_def]
    norm_num

/-- Claim C10, amended: `parseAIResponse` never throws (it is total);
an unparseable response (`JSON.parse` failure, modelled `none`) and any
non-array JSON value yield the empty list; every recommendation it yields
references a movie present in the supplied catalog (unknown ids dropped);
an absent `score` field defaults to `0.5`; and every yielded score that IS
a number lies in `[0.1, 1.0]`.  The parser can, however, yield a `NaN`
score (modelled `none`): a truthy non-numeric `score` field passes the
`rec.score || 0.5` guard and `Math.min`/`Math.max` propagate the `NaN`, so
the claim's "every yielded score is clamped into [0.1, 1.0]" is false. -/
theorem C10_corrected_parse_safety :
    (∀ (allMovies : List Movie), parseAIResponse none allMovies = []) ∧
    (∀ (j : Json) (allMovies : List Movie),
        (∀ elems, j ≠ Json.arr elems) → parseAIResponse (some j) allMovies = []) ∧
    (∀ (parsed : Option Json) (allMovies : List Movie) (r : AIRecommendation),
        r ∈ parseAIResponse parsed allMovies →
          r.movie ∈ allMovies ∧ ∀ q : ℚ, r.score = some q → 1 / 10 ≤ q ∧ q ≤ 1) ∧
    (∀ (allMovies : List Movie) (j : Json) (r : AIRecommendation),
        parseAIRecElem allMovies j = some r → getField j "score" = none →
          r.score = some (1 / 2)) := by
  refine ⟨fun _ => rfl, ?_, ?_, parseAIRecElem_default_score⟩
  · intro j allMovies hne
    match j with
    | .null => rfl
    | .bool _ => rfl
    | .num _ => rfl
    | .str _ => rfl
    | .obj _ => rfl
    | .arr elems => exact absurd rfl (hne elems)
  · intro parsed allMovies r hr
    match parsed with
    | none => exact absurd hr (by simp [parseAIResponse])
    | some (.null) => exact absurd hr (by simp [parseAIResponse])
    | some (.bool _) => exact absurd hr (by simp [parseAIResponse])
    | some (.num _) => exact absurd hr (by simp [parseAIResponse])
    | some (.str _) => exact absurd hr (by simp [parseAIResponse])
    | some (.obj _) => exact absurd hr (by simp [parseAIResponse])
    | some (.arr elems) =>
      rw [parseAIResponse] at hr
      by_cases hnull : elems.any (fun e => match e with | .null => true | _ => false)
      · rw [if_pos hnull] at hr
        exact absurd hr (by simp)
      · rw [if_neg hnull, mem_stableSortByLt] at hr
        obtain ⟨j, _, hj⟩ := List.mem_filterMap.mp hr
        obtain ⟨hmem, sv, hsv⟩ := parseAIRecElem_fields allMovies j r hj
        exact ⟨hmem, fun q hq => jsClamp_bounds sv q (by rw [← hsv, hq])⟩

/-- Evaluation: the well-formed AI response parses to the single expected
recommendation with score `0.95`. -/
theorem aiGood_parse_eval :
    parseAIResponse (some aiGoodJson) [mvX1] =
      [{ movie := mvX1, score := some (19 / 20),
         reason := "AI recommended based on your preferences" }] := by
  have h1 : min (1 : ℚ) (19 / 20) = 19 / 20 := min_eq_right (by norm_num)
  have h2 : max (1 / 10 : ℚ) (19 / 20) = 19 / 20 := max_eq_right (by norm_num)
  have h3 : ((19 : ℚ) / 20 != 0) = true := by
    rw [bne_iff_ne]
    norm_num
  simp [parseAIResponse, aiGoodJson, parseAIRecElem, getField, jsTruthy, jsToNumber,
        jsMin, jsMax, stableSortByLt, stableInsertByLt, mvX1, h1, h2, h3]
  norm_num

/-- Witness for C10: the non-array JSON value `3` yields `[]`, and the
well-formed response yields a non-empty list on which the catalog and clamp
guarantees of the amended claim hold. -/
theorem C10_witness :
    parseAIResponse (some (Json.num 3)) [mvX1] = [] ∧
    (∀ (r : AIRecommendation), r ∈ parseAIResponse (some aiGoodJson) [mvX1] →
        r.movie ∈ [mvX1] ∧ ∀ q : ℚ, r.score = some q → 1 / 10 ≤ q ∧ q ≤ 1) ∧
    parseAIResponse (some aiGoodJson) [mvX1] ≠ [] := by
  refine ⟨C10_corrected_parse_safety.2.1 (Json.num 3) [mvX1] (fun _ h => Json.noConfusion h),
    fun r hr => C10_corrected_parse_safety.2.2.1 (some aiGoodJson) [mvX1] r hr, ?_⟩
  rw [aiGood_parse_eval]
  simp

/-- Counterexample to claim C10 as stated: a response whose `score` field
is the truthy non-numeric string `"high"` yields a recommendation whose
score is `NaN` (modelled `none`), which is not a number in `[0.1, 1.0]` —
the clamp does not apply to it. -/
theorem C10_counterexample :
    parseAIResponse (some aiBadScoreJson) [mvX1] =
      [{ movie := mvX1, score := none,
         reason := "AI recommended based on your preferences" }] ∧
    (∀ q : ℚ, ¬ ((none : Option ℚ) = some q ∧ 1 / 10 ≤ q ∧ q ≤ 1)) := by
  exact ⟨rfl, fun q h => Option.noConfusion h.1⟩

end MovieRec
